import Mathlib

/-
Verification development for the template DEX adapter (src/index.js).

Embedding conventions
* The template marks every request to the chain node with a placeholder literal
  (for example the account, transaction and block requests).  The outcome of such a
  request is an argument of the embedded action: `Except Thrown α`, the rejected or
  fulfilled result of the awaited request.
* Names the template leaves unbound are arguments as well: the address derivation
  `Identities.Address.fromPublicKey` is the argument `fromPublicKey`.
* Records are typed by the way the source reads them: a property the source
  dereferences without a guard is a mandatory field, a property it guards with
  `?.`, `||`, `!` or `if (...)` is an `Option`.
* A rejected promise or a thrown value is `Except.error`; the values that can be thrown
  are the constructors of `Thrown`.
* A method that assigns to members of the adapter returns its completion together with the
  adapter after the call.  The channel object is the list of the calls made on it:
  `publish` records its call, `invoke` records its call and completes with the outcome
  given as an argument.  The timer of `setInterval` is the record of its delay; a firing
  of it runs the handler the source hands to `setInterval`.
* `crypto.createHash(sha256).update(s).digest(hex)` is `Sha256.sha256Hex s`, an
  executable model of SHA-256 over the UTF-8 bytes of `s`, with 32-bit words as natural
  numbers reduced modulo 2^32.
-/

namespace DexAdapter

/-! ## SHA-256 -/

namespace Sha256

/-- UTF-8 bytes of one character. -/
def utf8EncodeChar (c : Char) : List Nat :=
  let v := c.toNat
  if v < 0x80 then [v]
  else if v < 0x800 then [0xC0 + v / 64, 0x80 + v % 64]
  else if v < 0x10000 then [0xE0 + v / 4096, 0x80 + (v / 64) % 64, 0x80 + v % 64]
  else [0xF0 + v / 262144, 0x80 + (v / 4096) % 64, 0x80 + (v / 64) % 64, 0x80 + v % 64]

/-- UTF-8 bytes of a string, the encoding `update` applies to a string argument. -/
def utf8Encode (s : String) : List Nat :=
  s.data.flatMap utf8EncodeChar

/-- Two to the power 32: the modulus of word arithmetic. -/
def mod32 : Nat := 4294967296

/-- Addition of 32-bit words. -/
def add32 (x y : Nat) : Nat := (x + y) % mod32

/-- Right rotation of a 32-bit word. -/
def rotr (x n : Nat) : Nat := ((x >>> n) ||| (x <<< (32 - n))) % mod32

/-- Bitwise complement of a 32-bit word. -/
def not32 (x : Nat) : Nat := (x ^^^ 4294967295) % mod32

/-- The choice function of the compression round. -/
def ch (x y z : Nat) : Nat := (x &&& y) ^^^ (not32 x &&& z)

/-- The majority function of the compression round. -/
def maj (x y z : Nat) : Nat := (x &&& y) ^^^ (x &&& z) ^^^ (y &&& z)

/-- Upper-case sigma 0. -/
def bigSigma0 (x : Nat) : Nat := rotr x 2 ^^^ rotr x 13 ^^^ rotr x 22

/-- Upper-case sigma 1. -/
def bigSigma1 (x : Nat) : Nat := rotr x 6 ^^^ rotr x 11 ^^^ rotr x 25

/-- Lower-case sigma 0. -/
def smallSigma0 (x : Nat) : Nat := rotr x 7 ^^^ rotr x 18 ^^^ (x >>> 3)

/-- Lower-case sigma 1. -/
def smallSigma1 (x : Nat) : Nat := rotr x 17 ^^^ rotr x 19 ^^^ (x >>> 10)

/-- The 64 round constants. -/
def roundConstants : List Nat := [
  0x428a2f98, 0x71374491, 0xb5c0fbcf, 0xe9b5dba5, 0x3956c25b, 0x59f111f1, 0x923f82a4, 0xab1c5ed5,
  0xd807aa98, 0x12835b01, 0x243185be, 0x550c7dc3, 0x72be5d74, 0x80deb1fe, 0x9bdc06a7, 0xc19bf174,
  0xe49b69c1, 0xefbe4786, 0x0fc19dc6, 0x240ca1cc, 0x2de92c6f, 0x4a7484aa, 0x5cb0a9dc, 0x76f988da,
  0x983e5152, 0xa831c66d, 0xb00327c8, 0xbf597fc7, 0xc6e00bf3, 0xd5a79147, 0x06ca6351, 0x14292967,
  0x27b70a85, 0x2e1b2138, 0x4d2c6dfc, 0x53380d13, 0x650a7354, 0x766a0abb, 0x81c2c92e, 0x92722c85,
  0xa2bfe8a1, 0xa81a664b, 0xc24b8b70, 0xc76c51a3, 0xd192e819, 0xd6990624, 0xf40e3585, 0x106aa070,
  0x19a4c116, 0x1e376c08, 0x2748774c, 0x34b0bcb5, 0x391c0cb3, 0x4ed8aa4a, 0x5b9cca4f, 0x682e6ff3,
  0x748f82ee, 0x78a5636f, 0x84c87814, 0x8cc70208, 0x90befffa, 0xa4506ceb, 0xbef9a3f7, 0xc67178f2]

/-- The eight working words of the hash. -/
structure HashState where
  a : Nat
  b : Nat
  c : Nat
  d : Nat
  e : Nat
  f : Nat
  g : Nat
  h : Nat
  deriving DecidableEq, Repr

/-- The initial hash value. -/
def initialHash : HashState :=
  ⟨0x6a09e667, 0xbb67ae85, 0x3c6ef372, 0xa54ff53a, 0x510e527f, 0x9b05688c, 0x1f83d9ab, 0x5be0cd19⟩

/-- Padding: the byte 0x80, zero bytes up to 56 modulo 64, then the bit length on 8 bytes. -/
def pad (msg : List Nat) : List Nat :=
  let len := msg.length
  let zeros := (119 - len % 64) % 64
  let bits := 8 * len
  msg ++ [0x80] ++ List.replicate zeros 0 ++
    [(bits >>> 56) % 256, (bits >>> 48) % 256, (bits >>> 40) % 256, (bits >>> 32) % 256,
     (bits >>> 24) % 256, (bits >>> 16) % 256, (bits >>> 8) % 256, bits % 256]

/-- Big-endian 32-bit words of a byte list. -/
def toWords : List Nat → List Nat
  | b0 :: b1 :: b2 :: b3 :: rest => (b0 * 16777216 + b1 * 65536 + b2 * 256 + b3) :: toWords rest
  | _ => []

/-- Extend the message schedule, kept newest word first, by `n` more words. -/
def extend : Nat → List Nat → List Nat
  | 0, w => w
  | n + 1, w =>
    let next := add32 (add32 (smallSigma1 (w.getD 1 0)) (w.getD 6 0))
                  (add32 (smallSigma0 (w.getD 14 0)) (w.getD 15 0))
    extend n (next :: w)

/-- The 64 schedule words of one 64-byte block. -/
def schedule (block : List Nat) : List Nat :=
  (extend 48 (toWords block).reverse).reverse

/-- One compression round with round constant `k` and schedule word `w`. -/
def round (s : HashState) (k w : Nat) : HashState :=
  let t1 := add32 (add32 (add32 s.h (bigSigma1 s.e)) (ch s.e s.f s.g)) (add32 k w)
  let t2 := add32 (bigSigma0 s.a) (maj s.a s.b s.c)
  ⟨add32 t1 t2, s.a, s.b, s.c, add32 s.d t1, s.e, s.f, s.g⟩

/-- All rounds of one block. -/
def rounds : HashState → List Nat → List Nat → HashState
  | s, k :: ks, w :: ws => rounds (round s k w) ks ws
  | s, _, _ => s

/-- Compression of one block into the running hash. -/
def compress (hs : HashState) (block : List Nat) : HashState :=
  let s := rounds hs roundConstants (schedule block)
  ⟨add32 hs.a s.a, add32 hs.b s.b, add32 hs.c s.c, add32 hs.d s.d,
   add32 hs.e s.e, add32 hs.f s.f, add32 hs.g s.g, add32 hs.h s.h⟩

/-- Compression of the first `n` blocks of a padded message. -/
def processBlocks : Nat → HashState → List Nat → HashState
  | 0, hs, _ => hs
  | n + 1, hs, bytes => processBlocks n (compress hs (bytes.take 64)) (bytes.drop 64)

/-- The SHA-256 digest of a byte list, as eight words. -/
def digest (msg : List Nat) : HashState :=
  let p := pad msg
  processBlocks (p.length / 64) initialHash p

/-- The lowercase hexadecimal digit of a number below 16. -/
def hexDigit (n : Nat) : Char :=
  "0123456789abcdef".data.getD n '0'

/-- The eight hexadecimal digits of a 32-bit word, most significant first. -/
def hexWord (w : Nat) : List Char :=
  [hexDigit ((w >>> 28) % 16), hexDigit ((w >>> 24) % 16), hexDigit ((w >>> 20) % 16),
   hexDigit ((w >>> 16) % 16), hexDigit ((w >>> 12) % 16), hexDigit ((w >>> 8) % 16),
   hexDigit ((w >>> 4) % 16), hexDigit (w % 16)]

/-- The digest written in hexadecimal: `digest(hex)`. -/
def HashState.toHex (s : HashState) : String :=
  ⟨hexWord s.a ++ hexWord s.b ++ hexWord s.c ++ hexWord s.d ++
   hexWord s.e ++ hexWord s.f ++ hexWord s.g ++ hexWord s.h⟩

/-- The hexadecimal SHA-256 digest of a string:
`crypto.createHash(sha256).update(s).digest(hex)`. -/
def sha256Hex (s : String) : String := (digest (utf8Encode s)).toHex

end Sha256

/-! ## Values and records -/

/-- A primitive value read from a property: a string or an integral number. -/
inductive JSPrim where
  | str (s : String)
  | num (n : Int)
  deriving DecidableEq, Repr

/-- The values a transaction nonce takes: a string, or a safe integer, that is an integral
number of absolute value at most 2^53 - 1.  On this range every integer is a number of its
own and the string conversion of a number is its plain decimal notation; larger numbers,
which print rounded or in exponent notation, are not nonces of this type. -/
inductive Nonce where
  | str (s : String)
  | num (n : Int) (safe : n.natAbs ≤ 9007199254740991 := by decide)
  deriving DecidableEq, Repr

/-- String conversion of a nonce in a template literal placeholder: a string is itself, a
safe integer is printed in decimal, with a leading minus sign when negative. -/
def Nonce.toJSString : Nonce → String
  | .str s => s
  | .num n _ => toString n

/-- Truthiness of an optional string: `undefined` and the empty string are falsy. -/
def truthy : Option String → Bool
  | some s => decide (s ≠ "")
  | none => false

/-- The operator `a || b` on optional strings. -/
def jsOr (a b : Option String) : Option String :=
  if truthy a then a else b

/-- The operator `a || d` with a string literal `d` on the right: always a string. -/
def jsOrString (a : Option String) (d : String) : String :=
  match a with
  | some s => if truthy (some s) then s else d
  | none => d

/-- The timestamp object of a raw chain record; the adapter reads its `unix` member. -/
structure Timestamp where
  unix : Int
  deriving DecidableEq, Repr

/-- A transaction object as `sanitizeTransaction` reads it, with signatures of type `σ`:
for a raw chain transaction `σ` is the optional positional array of optional signatures,
after `transactionMapper` rewrote the property it is the list of signature packets. -/
structure Transaction (σ : Type) where
  sender : String
  recipient : String
  amount : String
  nonce : Nonce
  timestamp : Timestamp
  vendorField : Option String
  signature : Option String
  signatures : σ
  deriving DecidableEq, Repr

/-- A raw chain transaction. -/
abbrev RawTransaction := Transaction (Option (List (Option String)))

/-- One entry of the normalized signature list. -/
structure SignaturePacket where
  signerAddress : String
  publicKey : String
  signature : Option String
  deriving DecidableEq, Repr

/-- The object returned by `sanitizeTransaction`. -/
structure CanonicalTransaction (σ : Type) where
  id : String
  message : String
  amount : String
  timestamp : Int
  senderAddress : String
  recipientAddress : String
  signatures : σ
  nonce : Nonce
  deriving DecidableEq, Repr

/-- The value of a `timestamp` property: a number, or a timestamp object with a `unix`
member. -/
inductive TimestampValue where
  | number (seconds : Int)
  | object (timestamp : Timestamp)
  deriving DecidableEq, Repr

/-- The value of the `timestamp` property of a transaction handed to
`sanitizeTransaction`: the object whose `unix` member the method reads. -/
def Transaction.timestampValue {σ : Type} (t : Transaction σ) : TimestampValue :=
  .object t.timestamp

/-- The value of the `timestamp` property of the object `sanitizeTransaction` returns: a
number. -/
def CanonicalTransaction.timestampValue {σ : Type} (c : CanonicalTransaction σ) :
    TimestampValue :=
  .number c.timestamp

/-! ## Identifier derivation and sanitizing -/

/-- The constant `DEX_TRANSACTION_ID_LENGTH`. -/
def DEX_TRANSACTION_ID_LENGTH : Nat := 44

/-- The method `computeDEXTransactionId(senderAddress, nonce)`. -/
def computeDEXTransactionId (senderAddress : String) (nonce : Nonce) : String :=
  (Sha256.sha256Hex (senderAddress ++ "-" ++ nonce.toJSString)).take DEX_TRANSACTION_ID_LENGTH

/-- The method `sanitizeTransaction(t)`. -/
def sanitizeTransaction {σ : Type} (t : Transaction σ) : CanonicalTransaction σ :=
  { id := computeDEXTransactionId t.sender t.nonce
    message := jsOrString t.vendorField ""
    amount := t.amount
    timestamp := t.timestamp.unix
    senderAddress := t.sender
    recipientAddress := t.recipient
    signatures := t.signatures
    nonce := t.nonce }

/-! ## Thrown values -/

/-- The `response` member of a request failure. -/
structure Response where
  status : Nat
  deriving DecidableEq, Repr

/-- The values the adapter throws, catches, or stores as a cause.
* `undefined`: the absent `cause` of an error built without one;
* `typeError p`: the TypeError of reading property `p` of `undefined`;
* `error m r`: any other error object, with message `m` and optional `response` member `r`
  (a failed request);
* `invalidActionError n m c`: `new InvalidActionError(n, m, c)`. -/
inductive Thrown where
  | undefined
  | typeError (property : String)
  | error (message : String) (response : Option Response)
  | invalidActionError (name : String) (message : String) (cause : Thrown)
  deriving DecidableEq, Repr

/-- The member `type`, set to the class name by the constructor of `InvalidActionError`. -/
def Thrown.type : Thrown → Option String
  | .invalidActionError _ _ _ => some "InvalidActionError"
  | _ => none

/-- The member `name` of a thrown value. -/
def Thrown.name : Thrown → Option String
  | .invalidActionError n _ _ => some n
  | .typeError _ => some "TypeError"
  | .error _ _ => some "Error"
  | .undefined => none

/-- The member `cause` of a thrown value. -/
def Thrown.cause : Thrown → Thrown
  | .invalidActionError _ _ c => c
  | _ => .undefined

/-- The test `err instanceof InvalidActionError`. -/
def Thrown.isInvalidActionError : Thrown → Bool
  | .invalidActionError _ _ _ => true
  | _ => false

/-- The helper `notFound`: `err && err.response && err.response.status === 404`. -/
def notFound : Thrown → Bool
  | .error _ (some r) => r.status == 404
  | _ => false

/-- The constant `multisigAccountDidNotExistError`. -/
def multisigAccountDidNotExistError : String := "MultisigAccountDidNotExistError"

/-- The constant `accountDidNotExistError`. -/
def accountDidNotExistError : String := "AccountDidNotExistError"

/-- The constant `accountWasNotMultisigError`. -/
def accountWasNotMultisigError : String := "AccountWasNotMultisigError"

/-- The constant `blockDidNotExistError`. -/
def blockDidNotExistError : String := "BlockDidNotExistError"

/-! ## The adapter and its transaction mapper -/

/-- The constant `DEFAULT_MODULE_ALIAS`. -/
def DEFAULT_MODULE_ALIAS : String := "<template>_dex_adapter"

/-- The constant `MODULE_BOOTSTRAP_EVENT`. -/
def MODULE_BOOTSTRAP_EVENT : String := "bootstrap"

/-- The constant `MODULE_CHAIN_STATE_CHANGES_EVENT`. -/
def MODULE_CHAIN_STATE_CHANGES_EVENT : String := "chainChanges"

/-- The object literal `block` of an event payload: the two properties
`publishNewBlocks` writes. -/
structure BlockSummary where
  timestamp : Int
  height : Nat
  deriving DecidableEq, Repr

/-- Reading a property of the `block` object of a payload: a property the literal does not
write reads as `undefined` (`none`). -/
def BlockSummary.get (o : BlockSummary) (property : String) : Option JSPrim :=
  if property = "timestamp" then some (.num o.timestamp)
  else if property = "height" then some (.num (Int.ofNat o.height))
  else none

/-- The object literal `eventPayload` of `publishNewBlocks`. -/
structure EventPayload where
  type : String
  block : BlockSummary
  deriving DecidableEq, Repr

/-- A call made on the channel: `invoke(action, params)` with params the object whose one
key is `moduleKey` and whose value is the empty object, or `publish(name, data)` with
`data` absent (`none`) when the call passes one argument. -/
inductive ChannelCall where
  | invoke (action : String) (moduleKey : String)
  | publish (name : String) (data : Option EventPayload)
  deriving DecidableEq, Repr

/-- The channel object handed to `load`, as the calls made on it so far, oldest first. -/
structure Channel where
  calls : List ChannelCall
  deriving DecidableEq, Repr

/-- Record a call of `channel.invoke`. -/
def Channel.invoke (channel : Channel) (action : String) (moduleKey : String) : Channel :=
  ⟨channel.calls ++ [.invoke action moduleKey]⟩

/-- Record a call of `channel.publish`. -/
def Channel.publish (channel : Channel) (name : String) (data : Option EventPayload) : Channel :=
  ⟨channel.calls ++ [.publish name data]⟩

/-- A timer installed by `setInterval(handler, delay)` in `load`; its handler is
`chainPollingHandler`. -/
structure Interval where
  delay : Nat
  deriving DecidableEq, Repr

/-- The adapter instance, with the members the embedded methods read or write.
`dexNumberOfSignatures` and `dexMultisigPublicKeys` are unset (`none`) until the wallet
information is resolved, `channel` is unset until `load` stores it, and
`chainPollingInterval` is `null` (`none`) until `load` installs the timer.  The member
`alias` is named `moduleAlias` here. -/
structure TemplateAdapter where
  dexMultisigPublicKeys : Option (List String)
  dexNumberOfSignatures : Option Nat := none
  moduleAlias : String := DEFAULT_MODULE_ALIAS
  dexWalletAddress : Option String := none
  pollingInterval : Nat := 10000
  chainPollingInterval : Option Interval := none
  channel : Option Channel := none
  deriving DecidableEq, Repr

/-- The `config` member of the constructor options, with the entries the embedded methods
depend on. -/
structure Config where
  dexWalletAddress : Option String
  pollingInterval : Option Nat
  deriving DecidableEq, Repr

/-- The constructor argument `options`. -/
structure Options where
  moduleAlias : Option String
  config : Config
  deriving DecidableEq, Repr

/-- The expression `options.config.pollingInterval || 10000`: zero is falsy. -/
def pollingIntervalOrDefault (configured : Option Nat) : Nat :=
  match configured with
  | some n => if n ≠ 0 then n else 10000
  | none => 10000

/-- The constructor of the adapter: the assignments to the members embedded here.  The
wallet information it requests is resolved by `getRequiredDexWalletInformation`. -/
def TemplateAdapter.new (options : Options) : TemplateAdapter :=
  { moduleAlias := jsOrString options.moduleAlias DEFAULT_MODULE_ALIAS
    dexWalletAddress := options.config.dexWalletAddress
    chainPollingInterval := none
    pollingInterval := pollingIntervalOrDefault options.config.pollingInterval
    dexNumberOfSignatures := none
    dexMultisigPublicKeys := none
    channel := none }

/-- A call `setTimeout(() => this.transactionMapper(transaction), delay)`. -/
structure Timer where
  transaction : RawTransaction
  delay : Nat
  deriving DecidableEq, Repr

/-- What a call of `transactionMapper` does: the timers it installs and its completion. -/
structure MapperOutcome where
  timers : List Timer
  result : Except Thrown (CanonicalTransaction (List SignaturePacket))

/-- The method `Array.prototype.map((element, index) => ...)`, from start index `i`. -/
def arrayMapIdxFrom {α β : Type} (f : α → Nat → β) : Nat → List α → List β
  | _, [] => []
  | i, a :: as => f a i :: arrayMapIdxFrom f (i + 1) as

/-- The expression `signatures?.[index]`. -/
def optionalIndex (signatures : Option (List (Option String))) (index : Nat) : Option String :=
  match signatures with
  | none => none
  | some l =>
    match l.get? index with
    | some v => v
    | none => none

/-- The signature list `transactionMapper` builds from the resolved co-signer keys. -/
def signaturePackets (fromPublicKey : String → String) (keys : List String)
    (transaction : RawTransaction) : List SignaturePacket :=
  (arrayMapIdxFrom
    (fun publicKey index =>
      { signerAddress := fromPublicKey publicKey
        publicKey := publicKey
        signature := jsOr (optionalIndex transaction.signatures index) transaction.signature })
    0 keys).filter (fun signaturePacket => truthy signaturePacket.signature)

/-- The arrow function `transactionMapper`.  When the keys are unset the guard installs a
timer and control falls through to `this.dexMultisigPublicKeys.map`, which throws. -/
def transactionMapper (self : TemplateAdapter) (fromPublicKey : String → String)
    (transaction : RawTransaction) : MapperOutcome :=
  let timers : List Timer :=
    if self.dexMultisigPublicKeys.isNone then [⟨transaction, 200⟩] else []
  match self.dexMultisigPublicKeys with
  | none => ⟨timers, .error (.typeError "map")⟩
  | some keys =>
    ⟨timers, .ok (sanitizeTransaction
      { sender := transaction.sender
        recipient := transaction.recipient
        amount := transaction.amount
        nonce := transaction.nonce
        timestamp := transaction.timestamp
        vendorField := transaction.vendorField
        signature := transaction.signature
        signatures := signaturePackets fromPublicKey keys transaction })⟩

/-! ## Actions -/

/-- The mapping `transactions.map(f)` with a callback that may throw: elements are mapped
left to right and the first thrown value ends the call. -/
def arrayMap {α β : Type} (f : α → Except Thrown β) : List α → Except Thrown (List β)
  | [] => .ok []
  | a :: as =>
    match f a with
    | .error e => .error e
    | .ok b =>
      match arrayMap f as with
      | .error e => .error e
      | .ok bs => .ok (b :: bs)

/-- The body of the `try` block of the four list actions: the transaction request, then
`transactions.map(this.transactionMapper)`. -/
def fetchAndMap (self : TemplateAdapter) (fromPublicKey : String → String)
    (request : Except Thrown (List RawTransaction)) :
    Except Thrown (List (CanonicalTransaction (List SignaturePacket))) :=
  match request with
  | .error e => .error e
  | .ok transactions => arrayMap (fun t => (transactionMapper self fromPublicKey t).result) transactions

/-- The action `getOutboundTransactions`; `request` is the outcome of the transaction
request made for the parameters `walletAddress`, `fromTimestamp`, `limit`, `order`. -/
def getOutboundTransactions (self : TemplateAdapter) (fromPublicKey : String → String)
    (request : Except Thrown (List RawTransaction)) (walletAddress : String) :
    Except Thrown (List (CanonicalTransaction (List SignaturePacket))) :=
  match fetchAndMap self fromPublicKey request with
  | .ok transactions => .ok transactions
  | .error err =>
    if notFound err then .ok []
    else .error (.invalidActionError accountDidNotExistError
      ("Error getting outbound transactions with account address " ++ walletAddress) err)

/-- The action `getInboundTransactions`. -/
def getInboundTransactions (self : TemplateAdapter) (fromPublicKey : String → String)
    (request : Except Thrown (List RawTransaction)) (walletAddress : String) :
    Except Thrown (List (CanonicalTransaction (List SignaturePacket))) :=
  match fetchAndMap self fromPublicKey request with
  | .ok transactions => .ok transactions
  | .error err =>
    if notFound err then .ok []
    else .error (.invalidActionError accountDidNotExistError
      ("Error getting outbound transactions with account address " ++ walletAddress) err)

/-- The action `getInboundTransactionsFromBlock`; `request` is the outcome of the
transaction request made for `walletAddress` and `blockId`. -/
def getInboundTransactionsFromBlock (self : TemplateAdapter) (fromPublicKey : String → String)
    (request : Except Thrown (List RawTransaction)) (walletAddress : String) :
    Except Thrown (List (CanonicalTransaction (List SignaturePacket))) :=
  match fetchAndMap self fromPublicKey request with
  | .ok transactions => .ok transactions
  | .error err =>
    if notFound err then .ok []
    else .error (.invalidActionError accountDidNotExistError
      ("Error getting outbound transactions with account address " ++ walletAddress) err)

/-- The action `getOutboundTransactionsFromBlock`. -/
def getOutboundTransactionsFromBlock (self : TemplateAdapter) (fromPublicKey : String → String)
    (request : Except Thrown (List RawTransaction)) (walletAddress : String) :
    Except Thrown (List (CanonicalTransaction (List SignaturePacket))) :=
  match fetchAndMap self fromPublicKey request with
  | .ok transactions => .ok transactions
  | .error err =>
    if notFound err then .ok []
    else .error (.invalidActionError accountDidNotExistError
      ("Error getting outbound transactions with account address " ++ walletAddress) err)

/-- The `multiSignature` record of an account. -/
structure MultiSignature where
  min : Nat
  publicKeys : List String
  deriving DecidableEq, Repr

/-- The `attributes` member of an account. -/
structure AccountAttributes where
  multiSignature : Option MultiSignature
  deriving DecidableEq, Repr

/-- An account as the adapter reads it: `account.attributes.multiSignature` in
`isMultisigAccount`, `account.multiSignature` in `getRequiredDexWalletInformation`. -/
structure Account where
  attributes : AccountAttributes
  multiSignature : Option MultiSignature
  deriving DecidableEq, Repr

/-- The method `isMultisigAccount(account)`: `!!account.attributes.multiSignature`. -/
def isMultisigAccount (account : Account) : Bool :=
  account.attributes.multiSignature.isSome

/-- The action `getMultisigWalletMembers`; `request` is the outcome of the account request
for `walletAddress` (`none`: a falsy account). -/
def getMultisigWalletMembers (request : Except Thrown (Option Account)) (walletAddress : String) :
    Except Thrown Account :=
  let body : Except Thrown Account :=
    match request with
    | .error e => .error e
    | .ok (some account) =>
      if !isMultisigAccount account then
        .error (.invalidActionError accountWasNotMultisigError
          ("Account with address " ++ walletAddress ++ " is not a multisig account") .undefined)
      else .ok account
    | .ok none =>
      .error (.invalidActionError multisigAccountDidNotExistError
        ("Error getting multisig account with address " ++ walletAddress) .undefined)
  match body with
  | .ok account => .ok account
  | .error err =>
    if err.isInvalidActionError then .error err
    else .error (.invalidActionError multisigAccountDidNotExistError
      ("Error getting multisig account with address " ++ walletAddress) err)

/-- The action `getMinMultisigRequiredSignatures`: the same body, and the same
`return account`. -/
def getMinMultisigRequiredSignatures (request : Except Thrown (Option Account))
    (walletAddress : String) : Except Thrown Account :=
  let body : Except Thrown Account :=
    match request with
    | .error e => .error e
    | .ok (some account) =>
      if !isMultisigAccount account then
        .error (.invalidActionError accountWasNotMultisigError
          ("Account with address " ++ walletAddress ++ " is not a multisig account") .undefined)
      else .ok account
    | .ok none =>
      .error (.invalidActionError multisigAccountDidNotExistError
        ("Error getting multisig account with address " ++ walletAddress) .undefined)
  match body with
  | .ok account => .ok account
  | .error err =>
    if err.isInvalidActionError then .error err
    else .error (.invalidActionError multisigAccountDidNotExistError
      ("Error getting multisig account with address " ++ walletAddress) err)

/-- A block record of the chain. -/
structure Block where
  id : String
  height : Nat
  timestamp : Timestamp
  numberOfTransactions : Nat
  deriving DecidableEq, Repr

/-- The action `getBlockAtHeight`; `request` is the outcome of the block request for
`height` (`none`: falsy data). -/
def getBlockAtHeight (request : Except Thrown (Option Block)) (height : Nat) :
    Except Thrown Block :=
  match request with
  | .error e => .error e
  | .ok (some data) => .ok data
  | .ok none =>
    .error (.invalidActionError blockDidNotExistError
      ("Error getting block at height " ++ toString height) .undefined)

/-! ## Wallet information, block polling and module loading -/

/-- The method `getRequiredDexWalletInformation`; `request` is the outcome of the account
request for the configured wallet address.  The result is the completion and the adapter
after the call. -/
def getRequiredDexWalletInformation (self : TemplateAdapter) (request : Except Thrown Account) :
    Except Thrown Unit × TemplateAdapter :=
  match request with
  | .error e => (.error e, self)
  | .ok account =>
    match account.multiSignature with
    | none => (.error (.error "Wallet address is no multisig wallet" none), self)
    | some multiSignature =>
      (.ok (), { self with
        dexNumberOfSignatures := some multiSignature.min
        dexMultisigPublicKeys := some multiSignature.publicKeys })

/-- The callback of `blocks.forEach` in `publishNewBlocks`: build the payload and call
`this.channel.publish`. -/
def publishBlock (self : TemplateAdapter) (b : Block) : Except Thrown Unit × TemplateAdapter :=
  let eventPayload : EventPayload :=
    { type := "addBlock"
      block := { timestamp := b.timestamp.unix, height := b.height } }
  match self.channel with
  | none => (.error (.typeError "publish"), self)
  | some channel =>
    (.ok (), { self with
      channel := some (channel.publish
        (self.moduleAlias ++ ":" ++ MODULE_CHAIN_STATE_CHANGES_EVENT) (some eventPayload)) })

/-- The loop `blocks.forEach(callback)`: the blocks in array order, ended by the first
thrown value. -/
def forEachBlock : TemplateAdapter → List Block → Except Thrown Unit × TemplateAdapter
  | self, [] => (.ok (), self)
  | self, b :: bs =>
    match publishBlock self b with
    | (.error e, s) => (.error e, s)
    | (.ok _, s) => forEachBlock s bs

/-- The method `publishNewBlocks`; `request` is the outcome of the blocks request. -/
def publishNewBlocks (self : TemplateAdapter) (request : Except Thrown (List Block)) :
    Except Thrown Unit × TemplateAdapter :=
  match request with
  | .error e => (.error e, self)
  | .ok blocks => forEachBlock self blocks

/-- The handler `() => this.publishNewBlocks` handed to `setInterval`: it evaluates to the
method itself, which it does not call, and leaves the adapter as it is. -/
def chainPollingHandler (self : TemplateAdapter) :
    (Except Thrown (List Block) → Except Thrown Unit × TemplateAdapter) × TemplateAdapter :=
  (publishNewBlocks self, self)

/-- One firing of the polling timer: the handler runs and its value is discarded. -/
def chainPollingIntervalFires (self : TemplateAdapter) : TemplateAdapter :=
  (chainPollingHandler self).2

/-- The method `load(channel)`; `invokeOutcome` is the outcome of the awaited
`channel.invoke`, `blocksRequest` the outcome of the blocks request of the first
`publishNewBlocks`. -/
def load (self : TemplateAdapter) (channel : Channel) (invokeOutcome : Except Thrown Unit)
    (blocksRequest : Except Thrown (List Block)) : Except Thrown Unit × TemplateAdapter :=
  if !truthy self.dexWalletAddress then
    (.error (.error "Dex wallet address not provided in the config" none), self)
  else
    let stored : TemplateAdapter :=
      { self with channel := some (channel.invoke "app:updateModuleState" self.moduleAlias) }
    match invokeOutcome with
    | .error e => (.error e, stored)
    | .ok _ =>
      let announced : TemplateAdapter :=
        { stored with
          channel := some ((channel.invoke "app:updateModuleState" self.moduleAlias).publish
            (self.moduleAlias ++ ":" ++ MODULE_BOOTSTRAP_EVENT) none) }
      match publishNewBlocks announced blocksRequest with
      | (.error e, s) => (.error e, s)
      | (.ok _, s) => (.ok (), { s with chainPollingInterval := some ⟨self.pollingInterval⟩ })

/-- The method `blockMapper`. -/
def blockMapper (b : Block) : Block :=
  { id := b.id
    height := b.height
    timestamp := b.timestamp
    numberOfTransactions := b.numberOfTransactions }

/-- A sequence of poll cycles: `publishNewBlocks` called once per blocks request, each cycle
on the adapter the previous one left. -/
def pollCycles : TemplateAdapter → List (Except Thrown (List Block)) → TemplateAdapter
  | self, [] => self
  | self, request :: requests => pollCycles (publishNewBlocks self request).2 requests

/-- The calls made on the channel the adapter holds. -/
def channelCalls (self : TemplateAdapter) : List ChannelCall :=
  match self.channel with
  | some channel => channel.calls
  | none => []

/-- The heights carried by the published addBlock events among channel calls, in order. -/
def publishedHeights : List ChannelCall → List Nat
  | [] => []
  | .publish _ (some payload) :: calls =>
    if payload.type = "addBlock" then payload.block.height :: publishedHeights calls
    else publishedHeights calls
  | _ :: calls => publishedHeights calls

/-- The blocks fetched by a sequence of blocks requests, failed requests fetching none. -/
def fetchedBlocks : List (Except Thrown (List Block)) → List Block
  | [] => []
  | .ok blocks :: requests => blocks ++ fetchedBlocks requests
  | .error _ :: requests => fetchedBlocks requests

/-- The call `publish` that announces block `b` under module alias `moduleAlias`: channel
name the alias followed by `:chainChanges`, payload of type `addBlock` whose block carries
the unix timestamp and the height of `b`. -/
def addBlockEvent (moduleAlias : String) (b : Block) : ChannelCall :=
  .publish (moduleAlias ++ ":chainChanges") (some ⟨"addBlock", ⟨b.timestamp.unix, b.height⟩⟩)

/-! ## Specification-side definitions -/

/-- The signature list in the words of the specification: walk the co-signer keys in order
from position `i`; at each key take `signatures[i]` when present and the singular signature
otherwise; emit a packet when that value is present and nothing when it is absent.  A value
is present when it is defined and not the empty string. -/
def specSignatureWalk (fromPublicKey : String → String) (transaction : RawTransaction) :
    Nat → List String → List SignaturePacket
  | _, [] => []
  | i, key :: keys =>
    let positional := optionalIndex transaction.signatures i
    let value := if truthy positional then positional else transaction.signature
    if truthy value then
      ⟨fromPublicKey key, key, value⟩ :: specSignatureWalk fromPublicKey transaction (i + 1) keys
    else specSignatureWalk fromPublicKey transaction (i + 1) keys

/-- A not-found response in the words of the specification: an error object whose
`response.status` is 404. -/
def IsNotFoundResponse (e : Thrown) : Prop :=
  ∃ message, e = .error message (some ⟨404⟩)

/-- The failure raised while fetching and normalizing, in the words of the specification:
either the transaction request fails with `e`, or it yields transactions of which a first
one makes `transactionMapper` raise `e` after all earlier ones were mapped. -/
def RaisedWhileFetching (self : TemplateAdapter) (fromPublicKey : String → String)
    (request : Except Thrown (List RawTransaction)) (e : Thrown) : Prop :=
  request = .error e ∨
    ∃ pre t post, request = .ok (pre ++ t :: post)
      ∧ (∀ u ∈ pre, ∃ c, (transactionMapper self fromPublicKey u).result = .ok c)
      ∧ (transactionMapper self fromPublicKey t).result = .error e

/-! ## Theorems -/

namespace Sha256

set_option maxRecDepth 100000 in
/-- The model agrees with the published digest of the empty message. -/
theorem sha256Hex_empty : sha256Hex "" =
    "e3b0c44298fc1c149afbf4c8996fb92427ae41e4649b934ca495991b7852b855" := by decide

set_option maxRecDepth 100000 in
/-- The model agrees with the published digest of the one-block message abc. -/
theorem sha256Hex_abc : sha256Hex "abc" =
    "ba7816bf8f01cfea414140de5dae2223b00361a396177a9cb410ff61f20015ad" := by decide

set_option maxRecDepth 100000 in
/-- The model agrees with the published digest of the 56-byte, two-block message. -/
theorem sha256Hex_two_blocks :
    sha256Hex "abcdbcdecdefdefgefghfghighijhijkijkljklmklmnlmnomnopnopq" =
    "248d6a61d20638b8e5c026930c3e6039a33ce45964ff2167f6ecedd419db06c1" := by decide

/-- A hexadecimal digest has 64 characters. -/
theorem toHex_length (s : HashState) : s.toHex.length = 64 := by
  simp [HashState.toHex, String.length, hexWord]

/-- The digit of a residue modulo 16 is a lowercase hexadecimal digit. -/
theorem hexDigit_mem (n : Nat) : hexDigit (n % 16) ∈ "0123456789abcdef".data := by
  have h : n % 16 < 16 := Nat.mod_lt _ (by decide)
  generalize n % 16 = m at h
  interval_cases m <;> decide

/-- Every character of a hexadecimal digest is a lowercase hexadecimal digit. -/
theorem toHex_chars (s : HashState) : ∀ c ∈ s.toHex.data, c ∈ "0123456789abcdef".data := by
  intro c hc
  simp only [HashState.toHex, hexWord, List.cons_append, List.nil_append, List.mem_cons,
    List.mem_singleton, List.not_mem_nil, or_false] at hc
  rcases hc with h | h | h | h | h | h | h | h | h | h | h | h | h | h | h | h |
    h | h | h | h | h | h | h | h | h | h | h | h | h | h | h | h |
    h | h | h | h | h | h | h | h | h | h | h | h | h | h | h | h |
    h | h | h | h | h | h | h | h | h | h | h | h | h | h | h | h <;>
  (subst h; exact hexDigit_mem _)

end Sha256

set_option maxRecDepth 100000 in
/-- The ids of four concrete senders and nonces, against the first 44 characters of the
digests a reference SHA-256 gives for A-5, A-7, A--3 and the address followed by
-9007199254740991. -/
theorem computeDEXTransactionId_examples :
    computeDEXTransactionId "A" (.num 5) = "0ba3e4db9f4f87321a9fb4474000e641a75291b71a4d"
      ∧ computeDEXTransactionId "A" (.str "7") = "3cccbcd7a3c8b57712028d47933f81f26729851fcbc2"
      ∧ computeDEXTransactionId "A" (.num (-3)) = "18a34aeb4dacc5651fe3b5a5221935c5d55df6738446"
      ∧ computeDEXTransactionId "DRFp1KVCuCMFLPFrHzbH8eYdPUoNwTXWzV" (.num 9007199254740991)
          = "8a34278d463d1d5ca77693fd2742d50cacbdfe47a596" := by
  refine ⟨?_, ?_, ?_, ?_⟩ <;> decide

/-- C1: for every sender address and every nonce (a string or a safe integer) the derived
identifier is the first 44 characters of the lowercase hexadecimal SHA-256 digest of the
sender address, a hyphen and the nonce printed as a string; it has exactly 44 characters,
each a lowercase hexadecimal digit.  The string hashed is pinned on both kinds of nonce:
a string nonce is hashed as it is and a number in decimal, as in A-5, whose id is the
first 44 characters of the published digest of that string. -/
theorem computeDEXTransactionId_spec (senderAddress : String) (nonce : Nonce) :
    computeDEXTransactionId senderAddress nonce
        = (Sha256.sha256Hex (senderAddress ++ "-" ++ nonce.toJSString)).take 44
      ∧ (computeDEXTransactionId senderAddress nonce).length = 44
      ∧ (∀ c ∈ (computeDEXTransactionId senderAddress nonce).data, c ∈ "0123456789abcdef".data)
      ∧ (∀ s : String, (Nonce.str s).toJSString = s)
      ∧ (∀ (n : Nat) (safe : (Int.ofNat n).natAbs ≤ 9007199254740991),
          (Nonce.num (Int.ofNat n) safe).toJSString = Nat.repr n)
      ∧ (∀ (n : Nat) (safe : (Int.negSucc n).natAbs ≤ 9007199254740991),
          (Nonce.num (Int.negSucc n) safe).toJSString = "-" ++ Nat.repr (n + 1))
      ∧ computeDEXTransactionId "A" (.num 5) = "0ba3e4db9f4f87321a9fb4474000e641a75291b71a4d"
      ∧ computeDEXTransactionId "A" (.str "7") = "3cccbcd7a3c8b57712028d47933f81f26729851fcbc2"
      ∧ computeDEXTransactionId "A" (.num (-3)) = "18a34aeb4dacc5651fe3b5a5221935c5d55df6738446"
      ∧ computeDEXTransactionId "DRFp1KVCuCMFLPFrHzbH8eYdPUoNwTXWzV" (.num 9007199254740991)
          = "8a34278d463d1d5ca77693fd2742d50cacbdfe47a596" := by
  refine ⟨rfl, ?_, ?_, fun _ => rfl, fun _ _ => rfl, fun _ _ => rfl,
    computeDEXTransactionId_examples⟩
  · unfold computeDEXTransactionId DEX_TRANSACTION_ID_LENGTH Sha256.sha256Hex
    rw [String.take_eq]
    have h := Sha256.toHex_length (Sha256.digest (Sha256.utf8Encode (senderAddress ++ "-" ++ nonce.toJSString)))
    simp only [String.length] at h ⊢
    rw [List.length_take, h]
    rfl
  · intro c hc
    unfold computeDEXTransactionId DEX_TRANSACTION_ID_LENGTH Sha256.sha256Hex at hc
    rw [String.take_eq] at hc
    exact Sha256.toHex_chars _ c (List.mem_of_mem_take hc)

/-- The raw transaction with its signatures rewritten, as handed to `sanitizeTransaction`. -/
theorem mapper_of_resolved_keys (self : TemplateAdapter) (fromPublicKey : String → String)
    (t : RawTransaction) (keys : List String) (hkeys : self.dexMultisigPublicKeys = some keys) :
    transactionMapper self fromPublicKey t
      = ⟨[], .ok (sanitizeTransaction
          { sender := t.sender, recipient := t.recipient, amount := t.amount, nonce := t.nonce,
            timestamp := t.timestamp, vendorField := t.vendorField, signature := t.signature,
            signatures := signaturePackets fromPublicKey keys t })⟩ := by
  unfold transactionMapper
  rw [hkeys]
  simp only [Option.isNone_some, Bool.false_eq_true, if_false]

/-- With unset keys the mapper installs one timer and throws. -/
theorem mapper_of_unset_keys (self : TemplateAdapter) (fromPublicKey : String → String)
    (t : RawTransaction) (hkeys : self.dexMultisigPublicKeys = none) :
    transactionMapper self fromPublicKey t = ⟨[⟨t, 200⟩], .error (.typeError "map")⟩ := by
  unfold transactionMapper
  rw [hkeys]
  simp only [Option.isNone_none, if_true]

/-- The id field of a sanitized transaction. -/
theorem id_of_sanitized {σ : Type} (t : Transaction σ) :
    (sanitizeTransaction t).id = computeDEXTransactionId t.sender t.nonce := by
  simp only [sanitizeTransaction]

/-- C2: two transactions with the same sender and the same nonce get the same id from
`sanitizeTransaction`, namely `computeDEXTransactionId sender nonce`, whatever their other
fields are; `transactionMapper` completes alike on both, and with resolved keys it returns
canonical transactions carrying that same id. -/
theorem sanitizeTransaction_id_of_sender_nonce (self : TemplateAdapter)
    (fromPublicKey : String → String) (t1 t2 : RawTransaction)
    (hsender : t1.sender = t2.sender) (hnonce : t1.nonce = t2.nonce) :
    (sanitizeTransaction t1).id = (sanitizeTransaction t2).id
      ∧ (sanitizeTransaction t1).id = computeDEXTransactionId t1.sender t1.nonce
      ∧ Except.map (fun c => c.id) (transactionMapper self fromPublicKey t1).result
          = Except.map (fun c => c.id) (transactionMapper self fromPublicKey t2).result
      ∧ (∀ keys, self.dexMultisigPublicKeys = some keys →
          ∃ c1 c2, (transactionMapper self fromPublicKey t1).result = .ok c1
            ∧ (transactionMapper self fromPublicKey t2).result = .ok c2
            ∧ c1.id = c2.id
            ∧ c1.id = computeDEXTransactionId t1.sender t1.nonce) := by
  refine ⟨?_, id_of_sanitized t1, ?_, ?_⟩
  · rw [id_of_sanitized, id_of_sanitized, hsender, hnonce]
  · cases hkeys : self.dexMultisigPublicKeys with
    | none =>
      rw [mapper_of_unset_keys self fromPublicKey t1 hkeys,
        mapper_of_unset_keys self fromPublicKey t2 hkeys]
    | some keys =>
      rw [mapper_of_resolved_keys self fromPublicKey t1 keys hkeys,
        mapper_of_resolved_keys self fromPublicKey t2 keys hkeys]
      simp only [Except.map, id_of_sanitized, hsender, hnonce]
  · intro keys hkeys
    rw [mapper_of_resolved_keys self fromPublicKey t1 keys hkeys,
      mapper_of_resolved_keys self fromPublicKey t2 keys hkeys]
    refine ⟨_, _, rfl, rfl, ?_, ?_⟩
    · simp only [id_of_sanitized, hsender, hnonce]
    · simp only [id_of_sanitized]

/-- Witness of C2: two transactions of one sender and nonce that differ in amount,
timestamp, message, recipient and signatures. -/
theorem sanitizeTransaction_id_of_sender_nonce_witness :
    (sanitizeTransaction (σ := Option (List (Option String)))
        ⟨"A", "R1", "10", .num 5, ⟨100⟩, some "hello", some "s1", none⟩).id
      = (sanitizeTransaction (σ := Option (List (Option String)))
        ⟨"A", "R2", "99", .num 5, ⟨200⟩, none, none, some [some "s2", none]⟩).id :=
  (sanitizeTransaction_id_of_sender_nonce { dexMultisigPublicKeys := some ["pkA", "pkB"] } (fun k => "addr:" ++ k)
    ⟨"A", "R1", "10", .num 5, ⟨100⟩, some "hello", some "s1", none⟩
    ⟨"A", "R2", "99", .num 5, ⟨200⟩, none, none, some [some "s2", none]⟩ rfl rfl).1

/-- C5, counterexample: for a raw transaction whose timestamp is the object with unix
member 100, the timestamp of the sanitized transaction is the number 100, not that
object: the raw value is not copied unchanged. -/
theorem sanitizeTransaction_timestamp_counterexample :
    (sanitizeTransaction (σ := Option (List (Option String)))
        ⟨"A", "R", "10", .num 5, ⟨100⟩, none, some "sigS", none⟩).timestampValue = .number 100
    ∧ (⟨"A", "R", "10", .num 5, ⟨100⟩, none, some "sigS", none⟩ : RawTransaction).timestampValue
        = .object ⟨100⟩
    ∧ (sanitizeTransaction (σ := Option (List (Option String)))
        ⟨"A", "R", "10", .num 5, ⟨100⟩, none, some "sigS", none⟩).timestampValue
      ≠ (⟨"A", "R", "10", .num 5, ⟨100⟩, none, some "sigS", none⟩ : RawTransaction).timestampValue := by
  refine ⟨rfl, rfl, ?_⟩
  intro h
  cases h

/-- C5, amended: `sanitizeTransaction` copies amount, sender address, recipient address
and nonce unchanged; its timestamp is a number, the `unix` member of the timestamp object
of the transaction; and its message is the message of the transaction when it has one and
the empty string otherwise. -/
theorem sanitizeTransaction_copies_fields {σ : Type} (t : Transaction σ) :
    (sanitizeTransaction t).amount = t.amount
      ∧ (sanitizeTransaction t).timestamp = t.timestamp.unix
      ∧ (sanitizeTransaction t).timestampValue = .number t.timestamp.unix
      ∧ (sanitizeTransaction t).senderAddress = t.sender
      ∧ (sanitizeTransaction t).recipientAddress = t.recipient
      ∧ (sanitizeTransaction t).nonce = t.nonce
      ∧ (sanitizeTransaction t).message
          = (match t.vendorField with
             | some message => message
             | none => "") := by
  refine ⟨rfl, rfl, rfl, rfl, rfl, rfl, ?_⟩
  simp only [sanitizeTransaction, jsOrString]
  cases h : t.vendorField with
  | none => rfl
  | some m =>
    by_cases hm : m = ""
    · simp [truthy, hm]
    · simp [truthy, hm]

/-- The packets built before filtering list the keys themselves, in order. -/
theorem arrayMapIdxFrom_publicKey (fromPublicKey : String → String) (t : RawTransaction)
    (keys : List String) (i : Nat) :
    (arrayMapIdxFrom
      (fun publicKey index =>
        ({ signerAddress := fromPublicKey publicKey
           publicKey := publicKey
           signature := jsOr (optionalIndex t.signatures index) t.signature } : SignaturePacket))
      i keys).map (fun p => p.publicKey) = keys := by
  induction keys generalizing i with
  | nil => rfl
  | cons k ks ih => simp only [arrayMapIdxFrom, List.map_cons, ih]

/-- Mapping with an index keeps the length. -/
theorem arrayMapIdxFrom_length {α β : Type} (f : α → Nat → β) (l : List α) (i : Nat) :
    (arrayMapIdxFrom f i l).length = l.length := by
  induction l generalizing i with
  | nil => rfl
  | cons a as ih => simp only [arrayMapIdxFrom, List.length_cons, ih]

/-- The map-then-filter of the source is the walk of the specification. -/
theorem filter_arrayMapIdxFrom_eq_walk (fromPublicKey : String → String) (t : RawTransaction)
    (keys : List String) (i : Nat) :
    (arrayMapIdxFrom
      (fun publicKey index =>
        ({ signerAddress := fromPublicKey publicKey
           publicKey := publicKey
           signature := jsOr (optionalIndex t.signatures index) t.signature } : SignaturePacket))
      i keys).filter (fun signaturePacket => truthy signaturePacket.signature)
      = specSignatureWalk fromPublicKey t i keys := by
  induction keys generalizing i with
  | nil => rfl
  | cons k ks ih =>
    simp only [arrayMapIdxFrom, specSignatureWalk, List.filter_cons, ih]
    simp only [jsOr]

/-- C3: with resolved co-signer keys, the signatures of the mapped transaction are the
list obtained by walking the keys in order, taking `signatures[i]` when present and the
singular signature otherwise, and emitting a packet exactly when that value is present;
the public keys of the packets form a subsequence of the keys, there are at most as many
packets as keys, and every packet carries a signature and the address of its key. -/
theorem transactionMapper_signatures (self : TemplateAdapter) (fromPublicKey : String → String)
    (keys : List String) (t : RawTransaction) (hkeys : self.dexMultisigPublicKeys = some keys) :
    ∃ c, (transactionMapper self fromPublicKey t).result = .ok c
      ∧ c.signatures = specSignatureWalk fromPublicKey t 0 keys
      ∧ List.Sublist (c.signatures.map (fun p => p.publicKey)) keys
      ∧ c.signatures.length ≤ keys.length
      ∧ ∀ p ∈ c.signatures,
          truthy p.signature = true ∧ p.signerAddress = fromPublicKey p.publicKey := by
  rw [mapper_of_resolved_keys self fromPublicKey t keys hkeys]
  refine ⟨_, rfl, ?_, ?_, ?_, ?_⟩
  · simp only [sanitizeTransaction, signaturePackets]
    exact filter_arrayMapIdxFrom_eq_walk fromPublicKey t keys 0
  · simp only [sanitizeTransaction, signaturePackets]
    have h := (List.filter_sublist
      (p := fun signaturePacket : SignaturePacket => truthy signaturePacket.signature)
      (arrayMapIdxFrom
        (fun publicKey index =>
          ({ signerAddress := fromPublicKey publicKey
             publicKey := publicKey
             signature := jsOr (optionalIndex t.signatures index) t.signature } : SignaturePacket))
        0 keys)).map (fun p => p.publicKey)
    rw [arrayMapIdxFrom_publicKey] at h
    exact h
  · simp only [sanitizeTransaction, signaturePackets]
    refine le_trans (List.length_filter_le _ _) ?_
    rw [arrayMapIdxFrom_length]
  · intro p hp
    simp only [sanitizeTransaction, signaturePackets, List.mem_filter] at hp
    refine ⟨hp.2, ?_⟩
    have hall : ∀ (ks : List String) (i : Nat) (q : SignaturePacket),
        q ∈ arrayMapIdxFrom
          (fun publicKey index =>
            ({ signerAddress := fromPublicKey publicKey
               publicKey := publicKey
               signature := jsOr (optionalIndex t.signatures index) t.signature } : SignaturePacket))
          i ks → q.signerAddress = fromPublicKey q.publicKey := by
      intro ks
      induction ks with
      | nil => intro i q hq; simp [arrayMapIdxFrom] at hq
      | cons k ks ih =>
        intro i q hq
        simp only [arrayMapIdxFrom, List.mem_cons] at hq
        rcases hq with hq | hq
        · subst hq; rfl
        · exact ih _ q hq
    exact hall keys 0 p hp.1

/-- Witness of C3: keys pkA, pkB, pkC against signatures [undefined, sigB] and the
singular signature sigS give the packets of pkA (sigS), pkB (sigB) and pkC (sigS). -/
theorem transactionMapper_signatures_witness :
    Except.map (fun c => c.signatures)
        (transactionMapper { dexMultisigPublicKeys := some ["pkA", "pkB", "pkC"] } (fun k => "addr:" ++ k)
          ⟨"A", "R", "10", .num 5, ⟨100⟩, none, some "sigS", some [none, some "sigB"]⟩).result
      = .ok [⟨"addr:pkA", "pkA", some "sigS"⟩, ⟨"addr:pkB", "pkB", some "sigB"⟩,
          ⟨"addr:pkC", "pkC", some "sigS"⟩] := by
  obtain ⟨c, hc, hsig, -⟩ := transactionMapper_signatures { dexMultisigPublicKeys := some ["pkA", "pkB", "pkC"] }
    (fun k => "addr:" ++ k) ["pkA", "pkB", "pkC"]
    ⟨"A", "R", "10", .num 5, ⟨100⟩, none, some "sigS", some [none, some "sigB"]⟩ rfl
  rw [hc]
  simp only [Except.map, hsig]
  refine congrArg Except.ok ?_
  decide

/-- C4, counterexample: co-signers pkA and pkB, raw signatures [sigA, undefined] and a
singular signature sigS.  The second position falls back to the singular signature, so the
mapped transaction has two packets, not the single packet of pkA. -/
theorem transactionMapper_singular_fallback_counterexample :
    Except.map (fun c => c.signatures)
        (transactionMapper { dexMultisigPublicKeys := some ["pkA", "pkB"] } (fun k => "addr:" ++ k)
          ⟨"W", "R", "10", .num 5, ⟨100⟩, none, some "sigS", some [some "sigA", none]⟩).result
      = .ok [⟨"addr:pkA", "pkA", some "sigA"⟩, ⟨"addr:pkB", "pkB", some "sigS"⟩]
    ∧ Except.map (fun c => c.signatures.length)
        (transactionMapper { dexMultisigPublicKeys := some ["pkA", "pkB"] } (fun k => "addr:" ++ k)
          ⟨"W", "R", "10", .num 5, ⟨100⟩, none, some "sigS", some [some "sigA", none]⟩).result
      = .ok 2 := by
  rw [mapper_of_resolved_keys _ _ _ ["pkA", "pkB"] rfl]
  simp only [Except.map, sanitizeTransaction]
  constructor
  · congr 1
  · congr 1

/-- C4, amended: co-signers pkA and pkB, raw signatures [sigA, undefined] with sigA
non-empty, and no singular signature (absent or empty).  The mapped transaction has
exactly one signature packet, that of pkA with sigA. -/
theorem transactionMapper_two_keys_one_signature (self : TemplateAdapter)
    (fromPublicKey : String → String) (pkA pkB sigA : String) (t : RawTransaction)
    (hkeys : self.dexMultisigPublicKeys = some [pkA, pkB])
    (hsigs : t.signatures = some [some sigA, none]) (hsigA : sigA ≠ "")
    (hsingle : truthy t.signature = false) :
    ∃ c, (transactionMapper self fromPublicKey t).result = .ok c
      ∧ c.signatures = [⟨fromPublicKey pkA, pkA, some sigA⟩]
      ∧ c.signatures.length = 1 := by
  rw [mapper_of_resolved_keys self fromPublicKey t [pkA, pkB] hkeys]
  have hpackets : signaturePackets fromPublicKey [pkA, pkB] t
      = [⟨fromPublicKey pkA, pkA, some sigA⟩] := by
    have hA : truthy (some sigA) = true := by simp [truthy, hsigA]
    have hnone : truthy none = false := rfl
    simp [signaturePackets, arrayMapIdxFrom, optionalIndex, jsOr, hsigs, hA, hnone, hsingle,
      List.filter_cons]
  refine ⟨_, rfl, ?_, ?_⟩
  · simp only [sanitizeTransaction, hpackets]
  · simp only [sanitizeTransaction, hpackets, List.length_singleton]

/-- Witness of the amended C4: the transaction of the scenario, without a singular
signature. -/
theorem transactionMapper_two_keys_one_signature_witness :
    Except.map (fun c => c.signatures)
        (transactionMapper { dexMultisigPublicKeys := some ["pkA", "pkB"] } (fun k => "addr:" ++ k)
          ⟨"W", "R", "10", .num 5, ⟨100⟩, none, none, some [some "sigA", none]⟩).result
      = .ok [⟨"addr:pkA", "pkA", some "sigA"⟩] := by
  obtain ⟨c, hc, hsig, -⟩ := transactionMapper_two_keys_one_signature { dexMultisigPublicKeys := some ["pkA", "pkB"] }
    (fun k => "addr:" ++ k) "pkA" "pkB" "sigA"
    ⟨"W", "R", "10", .num 5, ⟨100⟩, none, none, some [some "sigA", none]⟩
    rfl rfl (by decide) rfl
  rw [hc]
  simp only [Except.map, hsig]
  refine congrArg Except.ok ?_
  decide

/-- C6, failing input: with the co-signer keys not yet resolved, the mapper installs the
200 ms retry timer and then raises the TypeError of reading `map` of `undefined`. -/
theorem transactionMapper_unresolved_raises :
    (transactionMapper { dexMultisigPublicKeys := none } (fun k => "addr:" ++ k)
        ⟨"A", "R", "10", .num 5, ⟨100⟩, none, some "sigS", none⟩).result
      = .error (.typeError "map")
    ∧ (transactionMapper { dexMultisigPublicKeys := none } (fun k => "addr:" ++ k)
        ⟨"A", "R", "10", .num 5, ⟨100⟩, none, some "sigS", none⟩).timers
      = [⟨⟨"A", "R", "10", .num 5, ⟨100⟩, none, some "sigS", none⟩, 200⟩] := by
  rw [mapper_of_unset_keys _ _ _ rfl]
  exact ⟨rfl, rfl⟩

/-- The helper `notFound` accepts exactly the errors whose response status is 404. -/
theorem notFound_iff (e : Thrown) : notFound e = true ↔ IsNotFoundResponse e := by
  unfold IsNotFoundResponse
  cases e with
  | undefined => simp [notFound]
  | typeError p => simp [notFound]
  | invalidActionError n m c => simp [notFound]
  | error m r =>
    cases r with
    | none => simp [notFound]
    | some r =>
      cases r with
      | mk status =>
        simp only [notFound, beq_iff_eq, Thrown.error.injEq, Option.some.injEq, Response.mk.injEq]
        constructor
        · intro h; exact ⟨m, rfl, h⟩
        · rintro ⟨_, -, h⟩; exact h

/-- Mapping stops at the first element whose callback throws. -/
theorem arrayMap_first_error {α β : Type} (f : α → Except Thrown β) (pre : List α) (a : α)
    (post : List α) (e : Thrown) (hpre : ∀ u ∈ pre, ∃ b, f u = .ok b) (ha : f a = .error e) :
    arrayMap f (pre ++ a :: post) = .error e := by
  induction pre with
  | nil => simp only [List.nil_append, arrayMap, ha]
  | cons u us ih =>
    obtain ⟨b, hb⟩ := hpre u (List.mem_cons_self u us)
    have hrest := ih (fun v hv => hpre v (List.mem_cons_of_mem u hv))
    show arrayMap f (u :: (us ++ a :: post)) = .error e
    simp only [arrayMap, hb, hrest]

/-- Mapping succeeds element by element, in order. -/
theorem arrayMap_ok {α β : Type} (f : α → Except Thrown β) (l : List α) (r : List β)
    (h : List.Forall₂ (fun a b => f a = .ok b) l r) : arrayMap f l = .ok r := by
  induction h with
  | nil => rfl
  | cons hab _ ih => simp only [arrayMap, hab, ih]

/-- The try block raises the failure raised while fetching and normalizing. -/
theorem fetchAndMap_raised (self : TemplateAdapter) (fromPublicKey : String → String)
    (request : Except Thrown (List RawTransaction)) (e : Thrown)
    (h : RaisedWhileFetching self fromPublicKey request e) :
    fetchAndMap self fromPublicKey request = .error e := by
  rcases h with h | ⟨pre, t, post, hreq, hpre, ht⟩
  · rw [h]; rfl
  · rw [hreq]
    exact arrayMap_first_error _ pre t post e hpre ht

/-- C7: each of the four list actions returns the empty list when the failure raised while
fetching and normalizing is a not-found response (status 404), raises an
InvalidActionError named AccountDidNotExistError whose cause is the original failure for
every other failure, and returns the fetched transactions mapped one to one, in order,
through `transactionMapper` when nothing fails. -/
theorem list_actions_contract
    (action : TemplateAdapter → (String → String) → Except Thrown (List RawTransaction) →
      String → Except Thrown (List (CanonicalTransaction (List SignaturePacket))))
    (haction : action = getOutboundTransactions ∨ action = getInboundTransactions
      ∨ action = getInboundTransactionsFromBlock ∨ action = getOutboundTransactionsFromBlock)
    (self : TemplateAdapter) (fromPublicKey : String → String)
    (request : Except Thrown (List RawTransaction)) (walletAddress : String) :
    (∀ e, RaisedWhileFetching self fromPublicKey request e → IsNotFoundResponse e →
        action self fromPublicKey request walletAddress = .ok [])
      ∧ (∀ e, RaisedWhileFetching self fromPublicKey request e → ¬ IsNotFoundResponse e →
          ∃ err, action self fromPublicKey request walletAddress = .error err
            ∧ err.type = some "InvalidActionError"
            ∧ err.name = some "AccountDidNotExistError"
            ∧ err.cause = e)
      ∧ (∀ transactions mapped, request = .ok transactions →
          List.Forall₂ (fun t c => (transactionMapper self fromPublicKey t).result = .ok c)
            transactions mapped →
          action self fromPublicKey request walletAddress = .ok mapped) := by
  have hbody : action self fromPublicKey request walletAddress
      = (match fetchAndMap self fromPublicKey request with
        | .ok transactions => .ok transactions
        | .error err =>
          if notFound err then .ok []
          else .error (.invalidActionError accountDidNotExistError
            ("Error getting outbound transactions with account address " ++ walletAddress) err)) := by
    rcases haction with h | h | h | h <;> rw [h] <;> rfl
  refine ⟨?_, ?_, ?_⟩
  · intro e hraised hnf
    rw [hbody, fetchAndMap_raised self fromPublicKey request e hraised]
    simp only [(notFound_iff e).mpr hnf, if_true]
  · intro e hraised hnf
    have hfalse : notFound e = false := by
      cases hn : notFound e with
      | false => rfl
      | true => exact absurd ((notFound_iff e).mp hn) hnf
    rw [hbody, fetchAndMap_raised self fromPublicKey request e hraised]
    simp only [hfalse, Bool.false_eq_true, if_false]
    exact ⟨_, rfl, rfl, rfl, rfl⟩
  · intro transactions mapped hreq hall
    rw [hbody, hreq]
    simp only [fetchAndMap, arrayMap_ok _ transactions mapped hall]

/-- Witness of C7: a transaction request answered with status 404 makes
`getOutboundTransactions` return the empty list. -/
theorem list_actions_contract_witness :
    getOutboundTransactions { dexMultisigPublicKeys := some ["pkA", "pkB"] } (fun k => "addr:" ++ k)
      (.error (.error "Request failed with status code 404" (some ⟨404⟩))) "W" = .ok [] :=
  (list_actions_contract getOutboundTransactions (Or.inl rfl) { dexMultisigPublicKeys := some ["pkA", "pkB"] }
    (fun k => "addr:" ++ k) (.error (.error "Request failed with status code 404" (some ⟨404⟩)))
    "W").1 _ (Or.inl rfl) ⟨_, rfl⟩

/-- C8: for `getMultisigWalletMembers` and `getMinMultisigRequiredSignatures`: a missing
account, or a lookup failing with an error that is not an InvalidActionError, raises an
InvalidActionError named MultisigAccountDidNotExistError (with the lookup failure as its
cause); an account that is not multisig raises an InvalidActionError named
AccountWasNotMultisigError; a multisig account raises nothing. -/
theorem multisig_actions_errors
    (action : Except Thrown (Option Account) → String → Except Thrown Account)
    (haction : action = getMultisigWalletMembers ∨ action = getMinMultisigRequiredSignatures)
    (request : Except Thrown (Option Account)) (walletAddress : String) :
    (request = .ok none →
        ∃ err, action request walletAddress = .error err
          ∧ err.type = some "InvalidActionError"
          ∧ err.name = some "MultisigAccountDidNotExistError")
      ∧ (∀ e, request = .error e → e.isInvalidActionError = false →
          ∃ err, action request walletAddress = .error err
            ∧ err.type = some "InvalidActionError"
            ∧ err.name = some "MultisigAccountDidNotExistError"
            ∧ err.cause = e)
      ∧ (∀ account, request = .ok (some account) → account.attributes.multiSignature = none →
          ∃ err, action request walletAddress = .error err
            ∧ err.type = some "InvalidActionError"
            ∧ err.name = some "AccountWasNotMultisigError")
      ∧ (∀ account, request = .ok (some account) → account.attributes.multiSignature ≠ none →
          ∃ r, action request walletAddress = .ok r) := by
  refine ⟨?_, ?_, ?_, ?_⟩
  · intro hreq
    rcases haction with h | h <;> rw [h, hreq] <;>
      exact ⟨_, rfl, rfl, rfl⟩
  · intro e hreq he
    rcases haction with h | h <;> rw [h, hreq] <;>
      simp only [getMultisigWalletMembers, getMinMultisigRequiredSignatures, he,
        Bool.false_eq_true, if_false] <;>
      exact ⟨_, rfl, rfl, rfl, rfl⟩
  · intro account hreq hnone
    have hm : isMultisigAccount account = false := by
      simp only [isMultisigAccount, hnone, Option.isSome_none]
    rcases haction with h | h <;> rw [h, hreq] <;>
      simp only [getMultisigWalletMembers, getMinMultisigRequiredSignatures, hm,
        Bool.not_false, if_true, Thrown.isInvalidActionError] <;>
      exact ⟨_, rfl, rfl, rfl⟩
  · intro account hreq hsome
    have hm : isMultisigAccount account = true := by
      simp only [isMultisigAccount]
      cases hms : account.attributes.multiSignature with
      | none => exact absurd hms hsome
      | some m => rfl
    rcases haction with h | h <;> rw [h, hreq] <;>
      simp only [getMultisigWalletMembers, getMinMultisigRequiredSignatures, hm,
        Bool.not_true, Bool.false_eq_true, if_false] <;>
      exact ⟨_, rfl⟩

/-- Witness of C8: `getMinMultisigRequiredSignatures` on an account without a
multisignature record raises AccountWasNotMultisigError. -/
theorem multisig_actions_errors_witness :
    (match getMinMultisigRequiredSignatures (.ok (some ⟨⟨none⟩, none⟩)) "W" with
      | .error err => (err.type, err.name)
      | .ok _ => (none, none))
      = (some "InvalidActionError", some "AccountWasNotMultisigError") := by
  obtain ⟨err, herr, htype, hname⟩ :=
    (multisig_actions_errors getMinMultisigRequiredSignatures (Or.inr rfl)
      (.ok (some ⟨⟨none⟩, none⟩)) "W").2.2.1 ⟨⟨none⟩, none⟩ rfl rfl
  rw [herr]
  simp only [htype, hname]

/-- C9, counterexample: the block request for height 7 answered with a block of height 5
makes `getBlockAtHeight` return that block: the height of the returned block is not the
requested height. -/
theorem getBlockAtHeight_height_counterexample :
    getBlockAtHeight (.ok (some ⟨"b5", 5, ⟨1662560648⟩, 3⟩)) 7 = .ok ⟨"b5", 5, ⟨1662560648⟩, 3⟩
    ∧ (⟨"b5", 5, ⟨1662560648⟩, 3⟩ : Block).height ≠ 7 := by
  refine ⟨rfl, by decide⟩

/-- C9, amended: when the block request completes, `getBlockAtHeight` raises an
InvalidActionError named BlockDidNotExistError exactly when the request yields no block,
and returns the block found as it is, without comparing its height with the requested
height, otherwise; a failure of the request is passed on unchanged. -/
theorem getBlockAtHeight_outcomes (height : Nat) :
    (∀ data : Option Block,
        (∃ err, getBlockAtHeight (.ok data) height = .error err
            ∧ err.type = some "InvalidActionError"
            ∧ err.name = some "BlockDidNotExistError") ↔ data = none)
      ∧ (∀ b : Block, getBlockAtHeight (.ok (some b)) height = .ok b)
      ∧ (∀ e : Thrown, getBlockAtHeight (.error e) height = .error e) := by
  refine ⟨?_, fun _ => rfl, fun _ => rfl⟩
  intro data
  constructor
  · rintro ⟨err, herr, -, -⟩
    cases data with
    | none => rfl
    | some b => simp [getBlockAtHeight] at herr
  · intro hnone
    subst hnone
    exact ⟨_, rfl, rfl, rfl⟩

/-- Witness of the amended C9: the request for height 12499729 answered with no block
raises BlockDidNotExistError, and answered with a block returns it. -/
theorem getBlockAtHeight_outcomes_witness :
    (∃ err, getBlockAtHeight (.ok none) 12499729 = .error err
        ∧ err.type = some "InvalidActionError"
        ∧ err.name = some "BlockDidNotExistError")
      ∧ getBlockAtHeight (.ok (some ⟨"b1", 12499729, ⟨1662560648⟩, 3⟩)) 12499729
          = .ok ⟨"b1", 12499729, ⟨1662560648⟩, 3⟩ :=
  ⟨((getBlockAtHeight_outcomes 12499729).1 none).mpr rfl,
    (getBlockAtHeight_outcomes 12499729).2.1 _⟩

/-- C10, failing input: for a multisig account whose multisignature minimum is 2,
`getMinMultisigRequiredSignatures` returns the account record itself. -/
theorem getMinMultisigRequiredSignatures_returns_account :
    getMinMultisigRequiredSignatures
        (.ok (some ⟨⟨some ⟨2, ["pkA", "pkB"]⟩⟩, some ⟨2, ["pkA", "pkB"]⟩⟩)) "W"
      = .ok ⟨⟨some ⟨2, ["pkA", "pkB"]⟩⟩, some ⟨2, ["pkA", "pkB"]⟩⟩ := by
  rfl

/-- The channel name of block events. -/
theorem chainChanges_name (moduleAlias : String) :
    moduleAlias ++ ":" ++ MODULE_CHAIN_STATE_CHANGES_EVENT = moduleAlias ++ ":chainChanges" := by
  rw [String.append_assoc]
  rfl

/-- The channel name of the bootstrap event. -/
theorem bootstrap_name (moduleAlias : String) :
    moduleAlias ++ ":" ++ MODULE_BOOTSTRAP_EVENT = moduleAlias ++ ":bootstrap" := by
  rw [String.append_assoc]
  rfl

/-- With a stored channel the loop publishes one event per block, in order, and changes
nothing else. -/
theorem forEachBlock_of_channel (blocks : List Block) (self : TemplateAdapter) (channel : Channel)
    (hchannel : self.channel = some channel) :
    forEachBlock self blocks
      = (.ok (), { self with
          channel := some ⟨channel.calls ++ blocks.map (addBlockEvent self.moduleAlias)⟩ }) := by
  induction blocks generalizing self channel with
  | nil =>
    cases self
    simp only at hchannel
    subst hchannel
    simp only [forEachBlock, List.map_nil, List.append_nil]
  | cons b bs ih =>
    have hstep : publishBlock self b
        = (.ok (), { self with channel := some ⟨channel.calls ++ [addBlockEvent self.moduleAlias b]⟩ }) := by
      simp only [publishBlock, hchannel, Channel.publish, chainChanges_name, addBlockEvent]
    simp only [forEachBlock, hstep]
    rw [ih _ ⟨channel.calls ++ [addBlockEvent self.moduleAlias b]⟩ rfl]
    simp only [List.map_cons, List.append_assoc, List.singleton_append]

/-- With a stored channel a poll cycle that fetched `blocks` completes and appends their
events to the calls of the channel. -/
theorem publishNewBlocks_of_channel (self : TemplateAdapter) (channel : Channel)
    (blocks : List Block) (hchannel : self.channel = some channel) :
    publishNewBlocks self (.ok blocks)
      = (.ok (), { self with
          channel := some ⟨channel.calls ++ blocks.map (addBlockEvent self.moduleAlias)⟩ }) := by
  simp only [publishNewBlocks]
  exact forEachBlock_of_channel blocks self channel hchannel

/-- C11: a poll cycle that fetched a list of blocks publishes exactly one event per fetched
block and nothing else, in the order of the list; each event is published on the channel
name made of the alias and `:chainChanges`, has type `addBlock` and carries the height of
its block; for an empty list nothing is published. -/
theorem publishNewBlocks_events (self : TemplateAdapter) (channel : Channel)
    (blocks : List Block) (hchannel : self.channel = some channel) :
    (publishNewBlocks self (.ok blocks)).1 = .ok ()
      ∧ (∃ events, channelCalls (publishNewBlocks self (.ok blocks)).2 = channel.calls ++ events
          ∧ List.Forall₂
              (fun b event => ∃ payload,
                event = ChannelCall.publish (self.moduleAlias ++ ":chainChanges") (some payload)
                  ∧ payload.type = "addBlock" ∧ payload.block.height = b.height)
              blocks events)
      ∧ (blocks = [] → channelCalls (publishNewBlocks self (.ok blocks)).2 = channel.calls) := by
  rw [publishNewBlocks_of_channel self channel blocks hchannel]
  refine ⟨rfl, ⟨blocks.map (addBlockEvent self.moduleAlias), rfl, ?_⟩, ?_⟩
  · induction blocks with
    | nil => exact List.Forall₂.nil
    | cons b bs ih => exact List.Forall₂.cons ⟨_, rfl, rfl, rfl⟩ ih
  · intro hnil
    subst hnil
    simp only [channelCalls, List.map_nil, List.append_nil]

/-- Witness of C11: the blocks 101 and 102 fetched by an adapter with alias dex whose
channel has no calls yet. -/
theorem publishNewBlocks_events_witness :
    (publishNewBlocks
        { dexMultisigPublicKeys := none, moduleAlias := "dex", channel := some ⟨[]⟩ }
        (.ok [⟨"b101", 101, ⟨1662560648⟩, 3⟩, ⟨"b102", 102, ⟨1662560656⟩, 0⟩])).1 = .ok ()
      ∧ channelCalls (publishNewBlocks
        { dexMultisigPublicKeys := none, moduleAlias := "dex", channel := some ⟨[]⟩ }
        (.ok [⟨"b101", 101, ⟨1662560648⟩, 3⟩, ⟨"b102", 102, ⟨1662560656⟩, 0⟩])).2
      = [.publish "dex:chainChanges" (some ⟨"addBlock", ⟨1662560648, 101⟩⟩),
         .publish "dex:chainChanges" (some ⟨"addBlock", ⟨1662560656, 102⟩⟩)] :=
  ⟨(publishNewBlocks_events
      { dexMultisigPublicKeys := none, moduleAlias := "dex", channel := some ⟨[]⟩ } ⟨[]⟩
      [⟨"b101", 101, ⟨1662560648⟩, 3⟩, ⟨"b102", 102, ⟨1662560656⟩, 0⟩] rfl).1,
    by decide⟩

/-- The heights published by two runs of calls are those of the first then of the second. -/
theorem publishedHeights_append (xs ys : List ChannelCall) :
    publishedHeights (xs ++ ys) = publishedHeights xs ++ publishedHeights ys := by
  induction xs with
  | nil => rfl
  | cons x xs ih =>
    cases x with
    | invoke action key => simpa only [List.cons_append, publishedHeights] using ih
    | publish name data =>
      cases data with
      | none => simpa only [List.cons_append, publishedHeights] using ih
      | some payload =>
        simp only [List.cons_append, publishedHeights]
        split
        · exact congrArg (List.cons payload.block.height) ih
        · exact ih

/-- The heights published by the events of a list of blocks are the heights of the blocks. -/
theorem publishedHeights_addBlockEvents (moduleAlias : String) (blocks : List Block) :
    publishedHeights (blocks.map (addBlockEvent moduleAlias)) = blocks.map (fun b => b.height) := by
  induction blocks with
  | nil => rfl
  | cons b bs ih => simp [addBlockEvent, publishedHeights, ih]

/-- A sequence of poll cycles appends the events of all fetched blocks, cycle after cycle,
each cycle in fetched order. -/
theorem pollCycles_of_channel (requests : List (Except Thrown (List Block)))
    (self : TemplateAdapter) (channel : Channel) (hchannel : self.channel = some channel) :
    pollCycles self requests
      = { self with
          channel := some ⟨channel.calls
            ++ (fetchedBlocks requests).map (addBlockEvent self.moduleAlias)⟩ } := by
  induction requests generalizing self channel with
  | nil =>
    cases self
    simp only at hchannel
    subst hchannel
    simp only [pollCycles, fetchedBlocks, List.map_nil, List.append_nil]
  | cons request requests ih =>
    cases request with
    | error e =>
      simp only [pollCycles, publishNewBlocks, fetchedBlocks]
      exact ih self channel hchannel
    | ok blocks =>
      simp only [pollCycles, fetchedBlocks]
      rw [publishNewBlocks_of_channel self channel blocks hchannel]
      rw [ih _ ⟨channel.calls ++ blocks.map (addBlockEvent self.moduleAlias)⟩ rfl]
      simp only [List.map_append, List.append_assoc]

/-- C12, counterexample: the adapter keeps no poll cursor.  A cycle that fetched the blocks
102 and 101 in that order publishes the heights 102 then 101, and two cycles that each
fetched the blocks 101 and 102 publish 101, 102, 101, 102: a later event carries a lower
height than an earlier one. -/
theorem pollCycles_height_regression_counterexample :
    publishedHeights (channelCalls (pollCycles
        { dexMultisigPublicKeys := none, moduleAlias := "dex", channel := some ⟨[]⟩ }
        [.ok [⟨"b102", 102, ⟨1662560656⟩, 0⟩, ⟨"b101", 101, ⟨1662560648⟩, 3⟩]]))
      = [102, 101]
    ∧ publishedHeights (channelCalls (pollCycles
        { dexMultisigPublicKeys := none, moduleAlias := "dex", channel := some ⟨[]⟩ }
        [.ok [⟨"b101", 101, ⟨1662560648⟩, 3⟩, ⟨"b102", 102, ⟨1662560656⟩, 0⟩],
         .ok [⟨"b101", 101, ⟨1662560648⟩, 3⟩, ⟨"b102", 102, ⟨1662560656⟩, 0⟩]]))
      = [101, 102, 101, 102] := by
  constructor <;> decide

/-- C12, amended: across every sequence of poll cycles the heights of the published
addBlock events are the heights of the fetched blocks, cycle after cycle and within a cycle
in fetched order; hence they are non-decreasing exactly when the fetched heights taken in
that order are. -/
theorem pollCycles_heights (self : TemplateAdapter) (channel : Channel)
    (requests : List (Except Thrown (List Block))) (hchannel : self.channel = some channel) :
    ∃ events, channelCalls (pollCycles self requests) = channel.calls ++ events
      ∧ publishedHeights events = (fetchedBlocks requests).map (fun b => b.height)
      ∧ (List.Pairwise (fun earlier later => earlier ≤ later) (publishedHeights events)
          ↔ List.Pairwise (fun earlier later => earlier ≤ later)
              ((fetchedBlocks requests).map (fun b => b.height))) := by
  rw [pollCycles_of_channel requests self channel hchannel]
  refine ⟨(fetchedBlocks requests).map (addBlockEvent self.moduleAlias), rfl, ?_, ?_⟩
  · exact publishedHeights_addBlockEvents _ _
  · rw [publishedHeights_addBlockEvents]

/-- Witness of the amended C12: a cycle on the new blocks 101 and 102 publishes exactly
the heights 101 then 102. -/
theorem pollCycles_heights_witness :
    publishedHeights (channelCalls (pollCycles
        { dexMultisigPublicKeys := none, moduleAlias := "dex", channel := some ⟨[]⟩ }
        [.ok [⟨"b101", 101, ⟨1662560648⟩, 3⟩, ⟨"b102", 102, ⟨1662560656⟩, 0⟩]]))
      = [101, 102] := by
  obtain ⟨events, hcalls, hheights, -⟩ := pollCycles_heights
    { dexMultisigPublicKeys := none, moduleAlias := "dex", channel := some ⟨[]⟩ } ⟨[]⟩
    [.ok [⟨"b101", 101, ⟨1662560648⟩, 3⟩, ⟨"b102", 102, ⟨1662560656⟩, 0⟩]] rfl
  rw [hcalls]
  simp only [List.nil_append, hheights]
  rfl

/-- C13, counterexample: the block carried by the event published for block b101 (height
101, three transactions) has a height and a timestamp and neither an id nor a number of
transactions, which `blockMapper` keeps. -/
theorem publishNewBlocks_payload_counterexample :
    channelCalls (publishNewBlocks
        { dexMultisigPublicKeys := none, moduleAlias := "dex", channel := some ⟨[]⟩ }
        (.ok [⟨"b101", 101, ⟨1662560648⟩, 3⟩])).2
      = [.publish "dex:chainChanges" (some ⟨"addBlock", ⟨1662560648, 101⟩⟩)]
    ∧ (⟨1662560648, 101⟩ : BlockSummary).get "id" = none
    ∧ (⟨1662560648, 101⟩ : BlockSummary).get "numberOfTransactions" = none
    ∧ (blockMapper ⟨"b101", 101, ⟨1662560648⟩, 3⟩).id = "b101"
    ∧ (blockMapper ⟨"b101", 101, ⟨1662560648⟩, 3⟩).numberOfTransactions = 3 := by
  refine ⟨by decide, by decide, by decide, rfl, rfl⟩

/-- C13, amended: for every block fetched in a poll cycle, the block carried by the event
published for it has exactly the two properties height and timestamp, the height of the
fetched block and the unix member of its timestamp; its id and numberOfTransactions read as
undefined. -/
theorem publishNewBlocks_payload (self : TemplateAdapter) (channel : Channel)
    (blocks : List Block) (hchannel : self.channel = some channel) :
    ∃ events, channelCalls (publishNewBlocks self (.ok blocks)).2 = channel.calls ++ events
      ∧ List.Forall₂
          (fun b event => ∃ name type carried,
            event = ChannelCall.publish name (some ⟨type, carried⟩)
              ∧ carried.height = b.height
              ∧ carried.timestamp = b.timestamp.unix
              ∧ carried.get "height" = some (.num (Int.ofNat b.height))
              ∧ carried.get "timestamp" = some (.num b.timestamp.unix)
              ∧ ∀ property, property ≠ "height" → property ≠ "timestamp" →
                  carried.get property = none)
          blocks events := by
  rw [publishNewBlocks_of_channel self channel blocks hchannel]
  refine ⟨blocks.map (addBlockEvent self.moduleAlias), rfl, ?_⟩
  induction blocks with
  | nil => exact List.Forall₂.nil
  | cons b bs ih =>
    refine List.Forall₂.cons ⟨_, _, _, rfl, rfl, rfl, ?_, ?_, ?_⟩ ih
    · simp [BlockSummary.get]
    · simp [BlockSummary.get]
    · intro property hheight htimestamp
      simp [BlockSummary.get, hheight, htimestamp]

/-- Witness of the amended C13: the event published for block b101. -/
theorem publishNewBlocks_payload_witness :
    ∃ events, channelCalls (publishNewBlocks
          { dexMultisigPublicKeys := none, moduleAlias := "dex", channel := some ⟨[]⟩ }
          (.ok [⟨"b101", 101, ⟨1662560648⟩, 3⟩])).2 = events
      ∧ List.Forall₂
          (fun (b : Block) event => ∃ name type carried,
            event = ChannelCall.publish name (some ⟨type, carried⟩)
              ∧ carried.height = b.height ∧ carried.timestamp = b.timestamp.unix)
          [⟨"b101", 101, ⟨1662560648⟩, 3⟩] events := by
  obtain ⟨events, hcalls, hall⟩ := publishNewBlocks_payload
    { dexMultisigPublicKeys := none, moduleAlias := "dex", channel := some ⟨[]⟩ } ⟨[]⟩
    [⟨"b101", 101, ⟨1662560648⟩, 3⟩] rfl
  refine ⟨events, by simpa using hcalls, ?_⟩
  refine hall.imp ?_
  rintro b event ⟨name, type, carried, hevent, hheight, htimestamp, -⟩
  exact ⟨name, type, carried, hevent, hheight, htimestamp⟩

/-- C14, failing input: an adapter built without a configured polling interval and with
wallet address W is loaded; the first cycle of `load` publishes block 101 and the timer is
installed with period 10000.  A firing of the timer leaves the channel calls as they were:
the handler does not call `publishNewBlocks`, although a cycle run on the same adapter
would publish the newly fetched block 102. -/
theorem chainPollingInterval_fires_without_cycle :
    (load (TemplateAdapter.new ⟨some "dex", ⟨some "W", none⟩⟩) ⟨[]⟩ (.ok ())
        (.ok [⟨"b101", 101, ⟨1662560648⟩, 3⟩])).1 = .ok ()
    ∧ (load (TemplateAdapter.new ⟨some "dex", ⟨some "W", none⟩⟩) ⟨[]⟩ (.ok ())
        (.ok [⟨"b101", 101, ⟨1662560648⟩, 3⟩])).2.chainPollingInterval = some ⟨10000⟩
    ∧ channelCalls (chainPollingIntervalFires
        (load (TemplateAdapter.new ⟨some "dex", ⟨some "W", none⟩⟩) ⟨[]⟩ (.ok ())
          (.ok [⟨"b101", 101, ⟨1662560648⟩, 3⟩])).2)
      = [.invoke "app:updateModuleState" "dex", .publish "dex:bootstrap" none,
         .publish "dex:chainChanges" (some ⟨"addBlock", ⟨1662560648, 101⟩⟩)]
    ∧ channelCalls (publishNewBlocks
        (load (TemplateAdapter.new ⟨some "dex", ⟨some "W", none⟩⟩) ⟨[]⟩ (.ok ())
          (.ok [⟨"b101", 101, ⟨1662560648⟩, 3⟩])).2
        (.ok [⟨"b102", 102, ⟨1662560656⟩, 0⟩])).2
      = [.invoke "app:updateModuleState" "dex", .publish "dex:bootstrap" none,
         .publish "dex:chainChanges" (some ⟨"addBlock", ⟨1662560648, 101⟩⟩),
         .publish "dex:chainChanges" (some ⟨"addBlock", ⟨1662560656, 102⟩⟩)] := by
  refine ⟨rfl, by decide, by decide, by decide⟩


/-- The channel names of block events and of the bootstrap event differ. -/
theorem chainChanges_ne_bootstrap (moduleAlias : String) :
    moduleAlias ++ ":chainChanges" ≠ moduleAlias ++ ":bootstrap" := by
  intro h
  have hdata : (":chainChanges" : String).data = (":bootstrap" : String).data :=
    List.append_cancel_left (by simpa only [String.data_append] using congrArg String.data h)
  exact absurd hdata (by decide)

/-- A load with a wallet address, a fulfilled `invoke` and a fulfilled blocks request. -/
theorem load_of_address (self : TemplateAdapter) (channel : Channel) (blocks : List Block)
    (haddress : truthy self.dexWalletAddress = true) :
    load self channel (.ok ()) (.ok blocks)
      = (.ok (), { self with
          channel := some ⟨channel.calls
            ++ [.invoke "app:updateModuleState" self.moduleAlias,
                .publish (self.moduleAlias ++ ":bootstrap") none]
            ++ blocks.map (addBlockEvent self.moduleAlias)⟩
          chainPollingInterval := some ⟨self.pollingInterval⟩ }) := by
  simp only [load, haddress, Bool.not_true, Bool.false_eq_true, if_false]
  rw [publishNewBlocks_of_channel _
    ⟨channel.calls ++ [.invoke "app:updateModuleState" self.moduleAlias,
      .publish (self.moduleAlias ++ ":bootstrap") none]⟩ blocks
    (by simp only [Channel.invoke, Channel.publish, bootstrap_name, List.append_assoc,
      List.singleton_append])]

/-- A load that completes had a wallet address, a fulfilled `invoke` and a fulfilled
blocks request. -/
theorem load_success_inputs (self : TemplateAdapter) (channel : Channel)
    (invokeOutcome : Except Thrown Unit) (blocksRequest : Except Thrown (List Block))
    (hsuccess : (load self channel invokeOutcome blocksRequest).1 = .ok ()) :
    truthy self.dexWalletAddress = true ∧ invokeOutcome = .ok ()
      ∧ ∃ blocks, blocksRequest = .ok blocks := by
  cases haddress : truthy self.dexWalletAddress with
  | false => simp [load, haddress] at hsuccess
  | true =>
    cases invokeOutcome with
    | error e => simp [load, haddress] at hsuccess
    | ok u =>
      cases blocksRequest with
      | error e => simp [load, haddress, publishNewBlocks] at hsuccess
      | ok blocks => exact ⟨rfl, rfl, blocks, rfl⟩

/-- C15: in every successful run of `load` the calls made on the channel are, in order,
the registration of the module state through `app:updateModuleState`, the bootstrap event
on the channel name made of the alias and `:bootstrap` with no payload, and then the block
events on the `:chainChanges` name, none of which is on the bootstrap name: the bootstrap
event is published exactly once, after the registration and before any block event. -/
theorem load_bootstrap_once (self : TemplateAdapter) (channel : Channel)
    (invokeOutcome : Except Thrown Unit) (blocksRequest : Except Thrown (List Block))
    (hsuccess : (load self channel invokeOutcome blocksRequest).1 = .ok ()) :
    ∃ blockEvents,
      channelCalls (load self channel invokeOutcome blocksRequest).2
          = channel.calls
            ++ [.invoke "app:updateModuleState" self.moduleAlias,
                .publish (self.moduleAlias ++ ":bootstrap") none]
            ++ blockEvents
        ∧ (∀ event ∈ blockEvents, ∃ payload,
            event = ChannelCall.publish (self.moduleAlias ++ ":chainChanges") (some payload))
        ∧ (∀ data, ChannelCall.publish (self.moduleAlias ++ ":bootstrap") data ∉ blockEvents) := by
  obtain ⟨haddress, hinvoke, blocks, hblocks⟩ :=
    load_success_inputs self channel invokeOutcome blocksRequest hsuccess
  subst hinvoke hblocks
  rw [load_of_address self channel blocks haddress]
  have hevents : ∀ event ∈ blocks.map (addBlockEvent self.moduleAlias), ∃ payload,
      event = ChannelCall.publish (self.moduleAlias ++ ":chainChanges") (some payload) := by
    intro event hevent
    obtain ⟨b, -, hb⟩ := List.mem_map.mp hevent
    exact ⟨_, hb.symm⟩
  refine ⟨blocks.map (addBlockEvent self.moduleAlias), rfl, hevents, ?_⟩
  intro data hmem
  obtain ⟨payload, hpayload⟩ := hevents _ hmem
  simp only [ChannelCall.publish.injEq] at hpayload
  exact chainChanges_ne_bootstrap self.moduleAlias hpayload.1.symm

/-- Witness of C15: the load of an adapter with alias dex and wallet address W whose first
cycle fetches block 101. -/
theorem load_bootstrap_once_witness :
    ∃ blockEvents,
      channelCalls (load (TemplateAdapter.new ⟨some "dex", ⟨some "W", none⟩⟩) ⟨[]⟩ (.ok ())
          (.ok [⟨"b101", 101, ⟨1662560648⟩, 3⟩])).2
        = [.invoke "app:updateModuleState" "dex", .publish "dex:bootstrap" none] ++ blockEvents
      ∧ ∀ data, ChannelCall.publish "dex:bootstrap" data ∉ blockEvents := by
  obtain ⟨blockEvents, hcalls, -, honce⟩ := load_bootstrap_once
    (TemplateAdapter.new ⟨some "dex", ⟨some "W", none⟩⟩) ⟨[]⟩ (.ok ())
    (.ok [⟨"b101", 101, ⟨1662560648⟩, 3⟩]) rfl
  exact ⟨blockEvents, hcalls, honce⟩

/-- C16: when the configuration provides no wallet address (absent or empty) `load` fails
with an error and returns the adapter as it was, so that no channel is stored, no call is
made on the channel and no timer is installed; the constructor copies the configured
address and leaves channel and timer unset; with a wallet address `load` completes when
`invoke` and the blocks request are fulfilled, and fails only with the failure of one of
them. -/
theorem load_requires_wallet_address (self : TemplateAdapter) (channel : Channel)
    (invokeOutcome : Except Thrown Unit) (blocksRequest : Except Thrown (List Block)) :
    (self.dexWalletAddress = none ∨ self.dexWalletAddress = some "" →
        load self channel invokeOutcome blocksRequest
          = (.error (.error "Dex wallet address not provided in the config" none), self))
      ∧ (∀ options : Options,
          (TemplateAdapter.new options).dexWalletAddress = options.config.dexWalletAddress
            ∧ (TemplateAdapter.new options).channel = none
            ∧ (TemplateAdapter.new options).chainPollingInterval = none)
      ∧ (∀ address, self.dexWalletAddress = some address → address ≠ "" →
          (∀ blocks, invokeOutcome = .ok () → blocksRequest = .ok blocks →
              (load self channel invokeOutcome blocksRequest).1 = .ok ())
            ∧ (∀ e, (load self channel invokeOutcome blocksRequest).1 = .error e →
                invokeOutcome = .error e ∨ blocksRequest = .error e)) := by
  refine ⟨?_, ?_, ?_⟩
  · intro habsent
    have hfalsy : truthy self.dexWalletAddress = false := by
      rcases habsent with h | h <;> rw [h] <;> rfl
    simp only [load, hfalsy, Bool.not_false, if_true]
  · intro options
    exact ⟨rfl, rfl, rfl⟩
  · intro address haddress hnonempty
    have htruthy : truthy self.dexWalletAddress = true := by
      rw [haddress]
      simp [truthy, hnonempty]
    constructor
    · intro blocks hinvoke hblocks
      subst hinvoke hblocks
      rw [load_of_address self channel blocks htruthy]
    · intro e he
      cases invokeOutcome with
      | error e1 =>
        simp only [load, htruthy, Bool.not_true, Bool.false_eq_true, if_false,
          Except.error.injEq] at he
        exact Or.inl (by rw [he])
      | ok u =>
        cases blocksRequest with
        | error e2 =>
          simp only [load, htruthy, Bool.not_true, Bool.false_eq_true, if_false,
            publishNewBlocks, Except.error.injEq] at he
          exact Or.inr (by rw [he])
        | ok blocks =>
          rw [load_of_address self channel blocks htruthy] at he
          simp at he

/-- Witness of C16: an adapter built from a configuration with an empty wallet address
fails to load and is unchanged. -/
theorem load_requires_wallet_address_witness :
    load (TemplateAdapter.new ⟨some "dex", ⟨some "", none⟩⟩) ⟨[]⟩ (.ok ())
        (.ok [⟨"b101", 101, ⟨1662560648⟩, 3⟩])
      = (.error (.error "Dex wallet address not provided in the config" none),
          TemplateAdapter.new ⟨some "dex", ⟨some "", none⟩⟩) :=
  (load_requires_wallet_address (TemplateAdapter.new ⟨some "dex", ⟨some "", none⟩⟩) ⟨[]⟩
    (.ok ()) (.ok [⟨"b101", 101, ⟨1662560648⟩, 3⟩])).1 (Or.inr rfl)

/-- C17, counterexample: an account whose multisignature record has minimum 0 makes
`getRequiredDexWalletInformation` complete, and the cached number of signatures is 0. -/
theorem getRequiredDexWalletInformation_minimum_counterexample :
    (getRequiredDexWalletInformation (TemplateAdapter.new ⟨some "dex", ⟨some "W", none⟩⟩)
        (.ok ⟨⟨some ⟨0, ["pkA"]⟩⟩, some ⟨0, ["pkA"]⟩⟩)).1 = .ok ()
    ∧ (getRequiredDexWalletInformation (TemplateAdapter.new ⟨some "dex", ⟨some "W", none⟩⟩)
        (.ok ⟨⟨some ⟨0, ["pkA"]⟩⟩, some ⟨0, ["pkA"]⟩⟩)).2.dexNumberOfSignatures = some 0
    ∧ ¬ ∃ cached,
        (getRequiredDexWalletInformation (TemplateAdapter.new ⟨some "dex", ⟨some "W", none⟩⟩)
          (.ok ⟨⟨some ⟨0, ["pkA"]⟩⟩, some ⟨0, ["pkA"]⟩⟩)).2.dexNumberOfSignatures = some cached
        ∧ 1 ≤ cached := by
  refine ⟨rfl, rfl, ?_⟩
  rintro ⟨cached, hcached, hone⟩
  have hzero : some 0 = some cached := hcached
  simp only [Option.some.injEq] at hzero
  omega

/-- C17, amended: for every account returned for the wallet address,
`getRequiredDexWalletInformation` fails exactly when the account has no multisignature
record, and then leaves the adapter, and so both cached values, as they were (unset after
construction); otherwise it completes and caches the multisignature minimum of the account,
whatever it is (at least 1 when the minimum of the account is), and the multisignature
public keys of the account in their order. -/
theorem getRequiredDexWalletInformation_spec (self : TemplateAdapter) (account : Account) :
    ((∃ e, (getRequiredDexWalletInformation self (.ok account)).1 = .error e)
        ↔ account.multiSignature = none)
      ∧ (account.multiSignature = none →
          (getRequiredDexWalletInformation self (.ok account)).2 = self)
      ∧ (∀ options : Options,
          (TemplateAdapter.new options).dexNumberOfSignatures = none
            ∧ (TemplateAdapter.new options).dexMultisigPublicKeys = none)
      ∧ (∀ multiSignature, account.multiSignature = some multiSignature →
          (getRequiredDexWalletInformation self (.ok account)).1 = .ok ()
            ∧ (getRequiredDexWalletInformation self (.ok account)).2.dexNumberOfSignatures
                = some multiSignature.min
            ∧ (getRequiredDexWalletInformation self (.ok account)).2.dexMultisigPublicKeys
                = some multiSignature.publicKeys
            ∧ (1 ≤ multiSignature.min →
                ∃ cached,
                  (getRequiredDexWalletInformation self (.ok account)).2.dexNumberOfSignatures
                    = some cached ∧ 1 ≤ cached)) := by
  refine ⟨?_, ?_, ?_, ?_⟩
  · constructor
    · rintro ⟨e, he⟩
      cases hms : account.multiSignature with
      | none => rfl
      | some m => simp [getRequiredDexWalletInformation, hms] at he
    · intro hnone
      refine ⟨.error "Wallet address is no multisig wallet" none, ?_⟩
      simp only [getRequiredDexWalletInformation, hnone]
  · intro hnone
    simp only [getRequiredDexWalletInformation, hnone]
  · intro options
    exact ⟨rfl, rfl⟩
  · intro m hsome
    have hrun : getRequiredDexWalletInformation self (.ok account)
        = (.ok (), { self with
            dexNumberOfSignatures := some m.min
            dexMultisigPublicKeys := some m.publicKeys }) := by
      simp only [getRequiredDexWalletInformation, hsome]
    rw [hrun]
    exact ⟨rfl, rfl, rfl, fun h => ⟨m.min, rfl, h⟩⟩

/-- Witness of the amended C17: the account with minimum 2 and the keys pkA, pkB. -/
theorem getRequiredDexWalletInformation_spec_witness :
    (getRequiredDexWalletInformation (TemplateAdapter.new ⟨some "dex", ⟨some "W", none⟩⟩)
        (.ok ⟨⟨some ⟨2, ["pkA", "pkB"]⟩⟩, some ⟨2, ["pkA", "pkB"]⟩⟩)).2.dexNumberOfSignatures
      = some 2
    ∧ (getRequiredDexWalletInformation (TemplateAdapter.new ⟨some "dex", ⟨some "W", none⟩⟩)
        (.ok ⟨⟨some ⟨2, ["pkA", "pkB"]⟩⟩, some ⟨2, ["pkA", "pkB"]⟩⟩)).2.dexMultisigPublicKeys
      = some ["pkA", "pkB"] :=
  ⟨((getRequiredDexWalletInformation_spec (TemplateAdapter.new ⟨some "dex", ⟨some "W", none⟩⟩)
      ⟨⟨some ⟨2, ["pkA", "pkB"]⟩⟩, some ⟨2, ["pkA", "pkB"]⟩⟩).2.2.2 ⟨2, ["pkA", "pkB"]⟩ rfl).2.1,
   ((getRequiredDexWalletInformation_spec (TemplateAdapter.new ⟨some "dex", ⟨some "W", none⟩⟩)
      ⟨⟨some ⟨2, ["pkA", "pkB"]⟩⟩, some ⟨2, ["pkA", "pkB"]⟩⟩).2.2.2 ⟨2, ["pkA", "pkB"]⟩ rfl).2.2.1⟩

end DexAdapter
